import Mathlib

/-!
# rocketpool/services/rocketpool/node/info.go

A verification development for `GetBalances` and `GetReservationDetails`.

Both functions start one goroutine per remote call and collect the results in a
`select` loop over unbuffered channels.  The goroutines and the collecting loop
are embedded as a small-step transition system: a state holds the program
counter and the local variables of every goroutine and of the calling function,
an action names the goroutine that moves (or the `select` case that fires), and
a schedule is a list of actions.  A send on an unbuffered channel and the
matching `select` case are one joint step.
-/

namespace Node

/-! ## Values of the Go standard library used by the file -/

/-- Go `time.Time`, observed through `Unix()` (epoch second) and `Nanosecond()`. -/
structure Time where
  sec : Int
  nsec : Int
deriving DecidableEq, Repr

/-- The zero value of `time.Time`: January 1, year 1, 00:00:00 UTC. -/
def Time.zero : Time := ⟨-62135596800, 0⟩

/-- Two's complement reading of an integer as a Go `int64`. -/
def wrapInt64 (x : Int) : Int := (x + 2 ^ 63) % 2 ^ 64 - 2 ^ 63

/-- Go `(*big.Int).Int64`: the low 64 bits of the magnitude converted to
`int64`, negated (in `int64`) when the number is negative. -/
def bigInt64 (x : Int) : Int :=
  let v := wrapInt64 (Int.ofNat (x.natAbs % 2 ^ 64))
  if x < 0 then wrapInt64 (-v) else v

/-- Go `time.Unix(sec, nsec)` on `int64` arguments, with the normalisation of a
nanosecond count outside `[0, 999999999]`. -/
def timeUnix (sec nsec : Int) : Time :=
  if nsec < 0 ∨ nsec ≥ 1000000000 then
    let n := Int.tdiv nsec 1000000000
    let sec1 := wrapInt64 (sec + n)
    let nsec1 := nsec - n * 1000000000
    if nsec1 < 0 then ⟨wrapInt64 (sec1 - 1), nsec1 + 1000000000⟩ else ⟨sec1, nsec1⟩
  else ⟨sec, nsec⟩

/-- The package `rocketpool/utils/eth` is not part of the sources at hand:
`eth.WeiToEth` is taken as a parameter.  `WeiToEth` is its value on a non-nil
`*big.Int`; `WeiToEthNil` is what it does on a nil pointer (`none`: the call
panics, `some v`: it returns `v`). -/
structure Eth where
  WeiToEth : Int → Int
  WeiToEthNil : Option Int

/-! ## One field goroutine -/

/-- Program counter of a field goroutine
`go (func() { slot := new(T); err := Call(nil, slot, m); if err != nil { errorChannel <- errors.New(d + err.Error()) }; fieldChannel <- operand(*slot) })()`. -/
inductive Pc (β : Type) where
  /-- the `go` statement has not been executed yet -/
  | idle
  /-- about to perform the remote call -/
  | call
  /-- the call has returned and `err` is assigned; about to test `err != nil` -/
  | check
  /-- inside the `if`: about to evaluate `errors.New(d + err.Error())` -/
  | wrap
  /-- blocked on `errorChannel <- msg` -/
  | sendErr (msg : String)
  /-- after the `if` statement: about to evaluate the operand of the field send -/
  | publish
  /-- blocked on `fieldChannel <- v` -/
  | sendVal (v : β)
  /-- the function literal has returned -/
  | done
  /-- the goroutine has panicked -/
  | panicked
deriving DecidableEq, Repr

/-- Local state of a field goroutine: the content of the output slot allocated
with `new` (`none` while the call has not written it) and the program counter. -/
structure Task (ρ β : Type) where
  slot : Option ρ
  pc : Pc β
deriving DecidableEq, Repr

/-- Number of values the goroutine has handed over on its field channel: 1 once
it has returned, 0 before. -/
def Pc.doneCount {β : Type} : Pc β → Nat
  | .done => 1
  | _ => 0

/-- Whether the goroutine has panicked. -/
def Pc.isPanicked {β : Type} : Pc β → Bool
  | .panicked => true
  | _ => false

/-- Whether the goroutine is blocked on a channel send. -/
def Pc.isSending {β : Type} : Pc β → Bool
  | .sendErr _ => true
  | .sendVal _ => true
  | _ => false

/-- The program counter with the value of a pending field send forgotten, so
that goroutines with different channel types can be compared. -/
def Pc.erase {β : Type} : Pc β → Pc Unit
  | .idle => .idle
  | .call => .call
  | .check => .check
  | .wrap => .wrap
  | .sendErr msg => .sendErr msg
  | .publish => .publish
  | .sendVal _ => .sendVal ()
  | .done => .done
  | .panicked => .panicked

/-- The statement `err = contract.Call(nil, slot, method)`: gives the new local
state and the value assigned to `err`.  A failed call leaves the slot as it was. -/
def Task.call {ρ β : Type} (reply : Except String ρ) (t : Task ρ β) :
    Option (Task ρ β × Option String) :=
  match t.pc with
  | .call =>
    match reply with
    | .ok v => some (⟨some v, .check⟩, none)
    | .error e => some (⟨t.slot, .check⟩, some e)
  | _ => none

/-- The test `if err != nil`, given the value read from `err`. -/
def Task.check {ρ β : Type} (err : Option String) (t : Task ρ β) : Option (Task ρ β) :=
  match t.pc with
  | .check => some { t with pc := if err.isSome then .wrap else .publish }
  | _ => none

/-- The expression `errors.New(descr + err.Error())`, given the value read from
`err`; calling `Error` on a nil error panics. -/
def Task.wrap {ρ β : Type} (descr : String) (err : Option String) (t : Task ρ β) :
    Option (Task ρ β) :=
  match t.pc with
  | .wrap =>
    match err with
    | some e => some { t with pc := .sendErr (descr ++ e) }
    | none => some { t with pc := .panicked }
  | _ => none

/-- The operand of the field send, evaluated on the slot; `none` from the
operand is a panic. -/
def Task.publish {ρ β : Type} (operand : Option ρ → Option β) (t : Task ρ β) :
    Option (Task ρ β) :=
  match t.pc with
  | .publish =>
    match operand t.slot with
    | some v => some { t with pc := .sendVal v }
    | none => some { t with pc := .panicked }
  | _ => none

/-- Completion of `errorChannel <- msg`: the message handed over and the
goroutine after it.  There is no `return` in the `if` body, so control falls
through to the field send. -/
def Task.sentErr {ρ β : Type} (t : Task ρ β) : Option (String × Task ρ β) :=
  match t.pc with
  | .sendErr msg => some (msg, { t with pc := .publish })
  | _ => none

/-- Completion of `fieldChannel <- v`: the value handed over and the goroutine
after it. -/
def Task.sentVal {ρ β : Type} (t : Task ρ β) : Option (β × Task ρ β) :=
  match t.pc with
  | .sendVal v => some (v, { t with pc := .done })
  | _ => none

/-- Operand `eth.WeiToEth(*slot)` of a field send. -/
def weiOperand (eth : Eth) : Option Int → Option Int
  | some w => some (eth.WeiToEth w)
  | none => eth.WeiToEthNil

/-- Operand `*slot` of a field send for a `*string` slot: the empty string when
the call has not written it. -/
def strOperand : Option String → Option String
  | some v => some v
  | none => some ""

/-- Operand `*slot` of a field send for a `**big.Int` slot: the nil pointer when
the call has not written it. -/
def ptrOperand : Option Int → Option (Option Int)
  | some v => some (some v)
  | none => some none

/-- Program counter of the function that collects the results. -/
inductive Main (R : Type) where
  /-- before the first statement -/
  | start
  /-- blocked in the `select` of the loop, with the current value of `received` -/
  | select (received : Nat)
  /-- the function has returned -/
  | returned (r : R)
  /-- the function has panicked -/
  | panicked
deriving DecidableEq, Repr

/-- Whether the collecting function has panicked. -/
def Main.isPanicked {R : Type} : Main R → Bool
  | .panicked => true
  | _ => false

/-- Whether the collecting function has returned. -/
def Main.isReturned {R : Type} : Main R → Bool
  | .returned _ => true
  | _ => false

/-- The actions of a goroutine `t` and the two `select` cases that serve it. -/
inductive Act (T : Type) where
  | call (t : T)
  | check (t : T)
  | wrap (t : T)
  | publish (t : T)
  | recvValue (t : T)
  | recvError (t : T)
deriving DecidableEq, Repr

/-! ## GetBalances -/

namespace GetBalances

/-- Replies of the node contract to the two calls of `GetBalances`. -/
structure Transport where
  getBalanceETH : Except String Int
  getBalanceRPL : Except String Int

/-- The two goroutines of `GetBalances`, each with its own balance channel. -/
inductive Field where
  | ether
  | rpl
deriving DecidableEq, Repr

/-- The triple `(*big.Int, *big.Int, error)` returned by `GetBalances`; `none`
is nil. -/
structure Result where
  etherBalance : Option Int
  rplBalance : Option Int
  err : Option String
deriving DecidableEq, Repr

/-- State of one invocation of `GetBalances`. -/
structure State where
  /-- goroutine "Get node ETH balance" (`etherBalanceWei`) -/
  etherTask : Task Int Int
  /-- its local `err` -/
  etherErr : Option String
  /-- goroutine "Get node RPL balance" (`rplBalanceWei`) -/
  rplTask : Task Int Int
  /-- its local `err` -/
  rplErr : Option String
  /-- `var etherBalance big.Int` -/
  etherBalance : Int
  /-- `var rplBalance big.Int` -/
  rplBalance : Int
  main : Main Result
deriving DecidableEq, Repr

/-- The loop head `received < 2`, followed by the final `return` when it fails. -/
def loop (etherBalance rplBalance : Int) (received : Nat) : Main Result :=
  if received < 2 then .select received
  else .returned ⟨some etherBalance, some rplBalance, none⟩

/-- State after the channels are made and both goroutines are started. -/
def init : State :=
  { etherTask := ⟨none, .call⟩, etherErr := none,
    rplTask := ⟨none, .call⟩, rplErr := none,
    etherBalance := 0, rplBalance := 0,
    main := loop 0 0 0 }

/-- A panic in any goroutine terminates the program. -/
def State.crashed (s : State) : Bool :=
  s.etherTask.pc.isPanicked || s.rplTask.pc.isPanicked || s.main.isPanicked

/-- One step of a running program; `none` when the action is not enabled. -/
def stepLive (tr : Transport) (eth : Eth) : Act Field → State → Option State
  | .call .ether, s =>
    (s.etherTask.call tr.getBalanceETH).map fun p => { s with etherTask := p.1, etherErr := p.2 }
  | .call .rpl, s =>
    (s.rplTask.call tr.getBalanceRPL).map fun p => { s with rplTask := p.1, rplErr := p.2 }
  | .check .ether, s =>
    (s.etherTask.check s.etherErr).map fun t => { s with etherTask := t }
  | .check .rpl, s =>
    (s.rplTask.check s.rplErr).map fun t => { s with rplTask := t }
  | .wrap .ether, s =>
    (s.etherTask.wrap "Error retrieving node ETH balance: " s.etherErr).map
      fun t => { s with etherTask := t }
  | .wrap .rpl, s =>
    (s.rplTask.wrap "Error retrieving node RPL balance: " s.rplErr).map
      fun t => { s with rplTask := t }
  | .publish .ether, s =>
    (s.etherTask.publish (weiOperand eth)).map fun t => { s with etherTask := t }
  | .publish .rpl, s =>
    (s.rplTask.publish (weiOperand eth)).map fun t => { s with rplTask := t }
  | .recvValue .ether, s =>
    match s.main, s.etherTask.sentVal with
    | .select n, some (v, t) =>
      some { s with etherTask := t, etherBalance := v, main := loop v s.rplBalance (n + 1) }
    | _, _ => none
  | .recvValue .rpl, s =>
    match s.main, s.rplTask.sentVal with
    | .select n, some (v, t) =>
      some { s with rplTask := t, rplBalance := v, main := loop s.etherBalance v (n + 1) }
    | _, _ => none
  | .recvError .ether, s =>
    match s.main, s.etherTask.sentErr with
    | .select _, some (e, t) =>
      some { s with etherTask := t, main := .returned ⟨none, none, some e⟩ }
    | _, _ => none
  | .recvError .rpl, s =>
    match s.main, s.rplTask.sentErr with
    | .select _, some (e, t) =>
      some { s with rplTask := t, main := .returned ⟨none, none, some e⟩ }
    | _, _ => none

/-- One step: nothing moves once the program has crashed. -/
def step (tr : Transport) (eth : Eth) (a : Act Field) (s : State) : Option State :=
  if s.crashed then none else stepLive tr eth a s

/-- Run a schedule; a scheduled action that is not enabled leaves the state as
it is. -/
def run (tr : Transport) (eth : Eth) (sched : List (Act Field)) (s : State) : State :=
  sched.foldl (fun s a => (step tr eth a s).getD s) s

/-- Program counter of the goroutine of a field. -/
def State.pc (s : State) : Field → Pc Unit
  | .ether => s.etherTask.pc.erase
  | .rpl => s.rplTask.pc.erase

/-- A schedule in which both goroutines run up to their field send and the
`select` then receives the two balances in the given order. -/
def arrival (order : List Field) : List (Act Field) :=
  [.call .ether, .check .ether, .publish .ether, .call .rpl, .check .rpl, .publish .rpl] ++
    order.map .recvValue

/-- What the local state of a balance goroutine says about its remote call. -/
def TaskInv (eth : Eth) (reply : Except String Int) (descr : String)
    (t : Task Int Int) (err : Option String) (main : Main Result) : Prop :=
  match reply with
  | .ok v => err = none ∧ ((t.pc = .call ∧ t.slot = none) ∨
      (t.slot = some v ∧
        (t.pc = .check ∨ t.pc = .publish ∨ t.pc = .sendVal (eth.WeiToEth v) ∨ t.pc = .done)))
  | .error e => t.slot = none ∧
      (t.pc = .call ∨
        (err = some e ∧ (t.pc = .check ∨ t.pc = .wrap ∨ t.pc = .sendErr (descr ++ e))) ∨
        main.isReturned = true)

/-- What the state of the collecting loop says about the goroutines. -/
def MainInv (tr : Transport) (eth : Eth) (s : State) : Prop :=
  match s.main with
  | .start => False
  | .panicked => False
  | .select n =>
    n = s.etherTask.pc.doneCount + s.rplTask.pc.doneCount ∧
    (∀ v, tr.getBalanceETH = .ok v → s.etherTask.pc = .done → s.etherBalance = eth.WeiToEth v) ∧
    (∀ v, tr.getBalanceRPL = .ok v → s.rplTask.pc = .done → s.rplBalance = eth.WeiToEth v)
  | .returned r =>
    (∃ v w, tr.getBalanceETH = .ok v ∧ tr.getBalanceRPL = .ok w ∧
      r = ⟨some (eth.WeiToEth v), some (eth.WeiToEth w), none⟩ ∧
      s.etherBalance = eth.WeiToEth v ∧ s.rplBalance = eth.WeiToEth w) ∨
    (∃ e, tr.getBalanceETH = .error e ∧
      r = ⟨none, none, some ("Error retrieving node ETH balance: " ++ e)⟩) ∨
    (∃ e, tr.getBalanceRPL = .error e ∧
      r = ⟨none, none, some ("Error retrieving node RPL balance: " ++ e)⟩)

/-- Invariant of `GetBalances`, for any replies of the transport. -/
def Inv (tr : Transport) (eth : Eth) (s : State) : Prop :=
  TaskInv eth tr.getBalanceETH "Error retrieving node ETH balance: " s.etherTask s.etherErr s.main ∧
  TaskInv eth tr.getBalanceRPL "Error retrieving node RPL balance: " s.rplTask s.rplErr s.main ∧
  MainInv tr eth s

end GetBalances

/-! ## GetReservationDetails -/

/-- Reservation detail data. -/
structure ReservationDetails where
  Exists : Bool
  StakingDurationID : String
  EtherRequired : Int
  RplRequired : Int
  ExpiryTime : Time
deriving DecidableEq, Repr

/-- The value of `&ReservationDetails{}`: every field at its zero value. -/
def ReservationDetails.zero : ReservationDetails := ⟨false, "", 0, 0, Time.zero⟩

namespace GetReservationDetails

/-- Replies of the node contract to the five calls made on it and of the
`rocketNodeSettings` contract to `getDepositReservationTime`. -/
structure Transport where
  getHasDepositReservation : Except String Bool
  getDepositReserveDurationID : Except String String
  getDepositReserveEtherRequired : Except String Int
  getDepositReserveRPLRequired : Except String Int
  getDepositReservedTime : Except String Int
  getDepositReservationTime : Except String Int

/-- The five goroutines of `GetReservationDetails`, each with its own channel. -/
inductive Field where
  | durationID
  | etherRequired
  | rplRequired
  | reservedTime
  | reservationTime
deriving DecidableEq, Repr

/-- The pair `(*ReservationDetails, error)` returned; `none` is nil. -/
structure Result where
  details : Option ReservationDetails
  err : Option String
deriving DecidableEq, Repr

/-- State of one invocation of `GetReservationDetails`. -/
structure State where
  /-- the variable `err` declared by `err := nodeContract.Call(...)` in the
  function body; the goroutines assign it with `err = ...` -/
  err : Option String
  /-- goroutine "Get deposit reservation duration ID" (`durationID`) -/
  durationIDTask : Task String String
  /-- goroutine "Get deposit reservation ETH required" (`etherRequiredWei`) -/
  etherRequiredTask : Task Int Int
  /-- goroutine "Get deposit reservation RPL required" (`rplRequiredWei`) -/
  rplRequiredTask : Task Int Int
  /-- goroutine "Get deposit reservation reserved time" (`reservedTime`) -/
  reservedTimeTask : Task Int (Option Int)
  /-- goroutine "Get reservation duration" (`reservationTime`) -/
  reservationTimeTask : Task Int (Option Int)
  /-- the record `details` points to -/
  details : ReservationDetails
  /-- `var reservedTime *big.Int` of the function body -/
  reservedTime : Option Int
  /-- `var reservationTime *big.Int` of the function body -/
  reservationTime : Option Int
  main : Main Result
  /-- the methods called on the transport so far, in order -/
  calls : List String
deriving DecidableEq, Repr

/-- The statements after the loop: `expiryTimestamp.Add(reservedTime,
reservationTime)` dereferences both pointers and panics on a nil one, then
`details.ExpiryTime = time.Unix(expiryTimestamp.Int64(), 0)` and the return. -/
def finish (details : ReservationDetails) (reservedTime reservationTime : Option Int) :
    Main Result :=
  match reservedTime, reservationTime with
  | some a, some b =>
    .returned ⟨some { details with ExpiryTime := timeUnix (bigInt64 (a + b)) 0 }, none⟩
  | _, _ => .panicked

/-- The loop head `received < 5`, followed by the statements after the loop
when it fails. -/
def loop (details : ReservationDetails) (reservedTime reservationTime : Option Int)
    (received : Nat) : Main Result :=
  if received < 5 then .select received else finish details reservedTime reservationTime

/-- State on entry: `details := &ReservationDetails{}`, no goroutine started. -/
def init : State :=
  { err := none,
    durationIDTask := ⟨none, .idle⟩, etherRequiredTask := ⟨none, .idle⟩,
    rplRequiredTask := ⟨none, .idle⟩, reservedTimeTask := ⟨none, .idle⟩,
    reservationTimeTask := ⟨none, .idle⟩,
    details := ReservationDetails.zero, reservedTime := none, reservationTime := none,
    main := .start, calls := [] }

/-- A panic in any goroutine terminates the program. -/
def State.crashed (s : State) : Bool :=
  s.durationIDTask.pc.isPanicked || s.etherRequiredTask.pc.isPanicked ||
  s.rplRequiredTask.pc.isPanicked || s.reservedTimeTask.pc.isPanicked ||
  s.reservationTimeTask.pc.isPanicked || s.main.isPanicked

/-- The sequential head of the function: the gating call, the two early
returns, and otherwise the six `make` and five `go` statements up to the first
evaluation of the loop head. -/
def gate (tr : Transport) (s : State) : Option State :=
  match s.main with
  | .start =>
    let s1 := { s with calls := s.calls ++ ["getHasDepositReservation"] }
    match tr.getHasDepositReservation with
    | .error e =>
      some { s1 with err := some e,
                     main := .returned
                       ⟨none, some ("Error retrieving deposit reservation status: " ++ e)⟩ }
    | .ok hasReservation =>
      let d := { s.details with Exists := hasReservation }
      if !d.Exists then
        some { s1 with err := none, details := d, main := .returned ⟨some d, none⟩ }
      else
        some { s1 with
          err := none, details := d,
          durationIDTask := ⟨none, .call⟩, etherRequiredTask := ⟨none, .call⟩,
          rplRequiredTask := ⟨none, .call⟩, reservedTimeTask := ⟨none, .call⟩,
          reservationTimeTask := ⟨none, .call⟩,
          main := loop d s.reservedTime s.reservationTime 0 }
  | _ => none

/-- One step of a goroutine, or of the `select`, in a running program; `none`
when the action is not enabled. -/
def stepLive (tr : Transport) (eth : Eth) : Act Field → State → Option State
  | .call .durationID, s =>
    (s.durationIDTask.call tr.getDepositReserveDurationID).map fun p =>
      { s with durationIDTask := p.1, err := p.2, calls := s.calls ++ ["getDepositReserveDurationID"] }
  | .call .etherRequired, s =>
    (s.etherRequiredTask.call tr.getDepositReserveEtherRequired).map fun p =>
      { s with etherRequiredTask := p.1, err := p.2, calls := s.calls ++ ["getDepositReserveEtherRequired"] }
  | .call .rplRequired, s =>
    (s.rplRequiredTask.call tr.getDepositReserveRPLRequired).map fun p =>
      { s with rplRequiredTask := p.1, err := p.2, calls := s.calls ++ ["getDepositReserveRPLRequired"] }
  | .call .reservedTime, s =>
    (s.reservedTimeTask.call tr.getDepositReservedTime).map fun p =>
      { s with reservedTimeTask := p.1, err := p.2, calls := s.calls ++ ["getDepositReservedTime"] }
  | .call .reservationTime, s =>
    (s.reservationTimeTask.call tr.getDepositReservationTime).map fun p =>
      { s with reservationTimeTask := p.1, err := p.2, calls := s.calls ++ ["getDepositReservationTime"] }
  | .check .durationID, s =>
    (s.durationIDTask.check s.err).map fun t => { s with durationIDTask := t }
  | .check .etherRequired, s =>
    (s.etherRequiredTask.check s.err).map fun t => { s with etherRequiredTask := t }
  | .check .rplRequired, s =>
    (s.rplRequiredTask.check s.err).map fun t => { s with rplRequiredTask := t }
  | .check .reservedTime, s =>
    (s.reservedTimeTask.check s.err).map fun t => { s with reservedTimeTask := t }
  | .check .reservationTime, s =>
    (s.reservationTimeTask.check s.err).map fun t => { s with reservationTimeTask := t }
  | .wrap .durationID, s =>
    (s.durationIDTask.wrap "Error retrieving deposit reservation staking duration ID: " s.err).map
      fun t => { s with durationIDTask := t }
  | .wrap .etherRequired, s =>
    (s.etherRequiredTask.wrap "Error retrieving deposit reservation ETH requirement: " s.err).map
      fun t => { s with etherRequiredTask := t }
  | .wrap .rplRequired, s =>
    (s.rplRequiredTask.wrap "Error retrieving deposit reservation RPL requirement: " s.err).map
      fun t => { s with rplRequiredTask := t }
  | .wrap .reservedTime, s =>
    (s.reservedTimeTask.wrap "Error retrieving deposit reservation reserved time: " s.err).map
      fun t => { s with reservedTimeTask := t }
  | .wrap .reservationTime, s =>
    (s.reservationTimeTask.wrap "Error retrieving node deposit reservation time setting: " s.err).map
      fun t => { s with reservationTimeTask := t }
  | .publish .durationID, s =>
    (s.durationIDTask.publish strOperand).map fun t => { s with durationIDTask := t }
  | .publish .etherRequired, s =>
    (s.etherRequiredTask.publish (weiOperand eth)).map fun t => { s with etherRequiredTask := t }
  | .publish .rplRequired, s =>
    (s.rplRequiredTask.publish (weiOperand eth)).map fun t => { s with rplRequiredTask := t }
  | .publish .reservedTime, s =>
    (s.reservedTimeTask.publish ptrOperand).map fun t => { s with reservedTimeTask := t }
  | .publish .reservationTime, s =>
    (s.reservationTimeTask.publish ptrOperand).map fun t => { s with reservationTimeTask := t }
  | .recvValue .durationID, s =>
    match s.main, s.durationIDTask.sentVal with
    | .select n, some (v, t) =>
      let d := { s.details with StakingDurationID := v }
      some { s with durationIDTask := t, details := d,
                    main := loop d s.reservedTime s.reservationTime (n + 1) }
    | _, _ => none
  | .recvValue .etherRequired, s =>
    match s.main, s.etherRequiredTask.sentVal with
    | .select n, some (v, t) =>
      let d := { s.details with EtherRequired := v }
      some { s with etherRequiredTask := t, details := d,
                    main := loop d s.reservedTime s.reservationTime (n + 1) }
    | _, _ => none
  | .recvValue .rplRequired, s =>
    match s.main, s.rplRequiredTask.sentVal with
    | .select n, some (v, t) =>
      let d := { s.details with RplRequired := v }
      some { s with rplRequiredTask := t, details := d,
                    main := loop d s.reservedTime s.reservationTime (n + 1) }
    | _, _ => none
  | .recvValue .reservedTime, s =>
    match s.main, s.reservedTimeTask.sentVal with
    | .select n, some (v, t) =>
      some { s with reservedTimeTask := t, reservedTime := v,
                    main := loop s.details v s.reservationTime (n + 1) }
    | _, _ => none
  | .recvValue .reservationTime, s =>
    match s.main, s.reservationTimeTask.sentVal with
    | .select n, some (v, t) =>
      some { s with reservationTimeTask := t, reservationTime := v,
                    main := loop s.details s.reservedTime v (n + 1) }
    | _, _ => none
  | .recvError .durationID, s =>
    match s.main, s.durationIDTask.sentErr with
    | .select _, some (e, t) => some { s with durationIDTask := t, main := .returned ⟨none, some e⟩ }
    | _, _ => none
  | .recvError .etherRequired, s =>
    match s.main, s.etherRequiredTask.sentErr with
    | .select _, some (e, t) => some { s with etherRequiredTask := t, main := .returned ⟨none, some e⟩ }
    | _, _ => none
  | .recvError .rplRequired, s =>
    match s.main, s.rplRequiredTask.sentErr with
    | .select _, some (e, t) => some { s with rplRequiredTask := t, main := .returned ⟨none, some e⟩ }
    | _, _ => none
  | .recvError .reservedTime, s =>
    match s.main, s.reservedTimeTask.sentErr with
    | .select _, some (e, t) => some { s with reservedTimeTask := t, main := .returned ⟨none, some e⟩ }
    | _, _ => none
  | .recvError .reservationTime, s =>
    match s.main, s.reservationTimeTask.sentErr with
    | .select _, some (e, t) => some { s with reservationTimeTask := t, main := .returned ⟨none, some e⟩ }
    | _, _ => none

/-- What the scheduler can pick: the sequential head of the function, or an
action of a goroutine or of the `select`. -/
inductive Step where
  | gate
  | task (a : Act Field)
deriving DecidableEq, Repr

/-- One step: nothing moves once the program has crashed. -/
def step (tr : Transport) (eth : Eth) (a : Step) (s : State) : Option State :=
  if s.crashed then none
  else
    match a with
    | .gate => gate tr s
    | .task a => stepLive tr eth a s

/-- Run a schedule; a scheduled action that is not enabled leaves the state as
it is. -/
def run (tr : Transport) (eth : Eth) (sched : List Step) (s : State) : State :=
  sched.foldl (fun s a => (step tr eth a s).getD s) s

/-- Program counter of the goroutine of a field. -/
def State.pc (s : State) : Field → Pc Unit
  | .durationID => s.durationIDTask.pc.erase
  | .etherRequired => s.etherRequiredTask.pc.erase
  | .rplRequired => s.rplRequiredTask.pc.erase
  | .reservedTime => s.reservedTimeTask.pc.erase
  | .reservationTime => s.reservationTimeTask.pc.erase

/-- The five fields, in the order of their `go` statements. -/
def Field.all : List Field :=
  [.durationID, .etherRequired, .rplRequired, .reservedTime, .reservationTime]

/-- The steps that take one goroutine from its start to its field send when
its call succeeds. -/
def upToSend (f : Field) : List Step :=
  [.task (.call f), .task (.check f), .task (.publish f)]

/-- A schedule in which the function runs its sequential head, every goroutine
runs up to its field send, and the `select` then receives the values in the
given order. -/
def arrival (order : List Field) : List Step :=
  .gate :: (upToSend .durationID ++ upToSend .etherRequired ++ upToSend .rplRequired ++
    upToSend .reservedTime ++ upToSend .reservationTime) ++
    order.map fun f => .task (.recvValue f)

/-- A transport on which the gating call answers true and the five field calls
succeed with the given values. -/
def Transport.success (id : String) (etherWei rplWei reserved duration : Int) : Transport :=
  { getHasDepositReservation := .ok true,
    getDepositReserveDurationID := .ok id,
    getDepositReserveEtherRequired := .ok etherWei,
    getDepositReserveRPLRequired := .ok rplWei,
    getDepositReservedTime := .ok reserved,
    getDepositReservationTime := .ok duration }

/-- Local state of a goroutine whose call succeeds with `v` and whose field
send has operand value `x`, while no error is pending. -/
def OkTask {ρ β : Type} (v : ρ) (x : β) (t : Task ρ β) : Prop :=
  (t.pc = .call ∧ t.slot = none) ∨
  (t.slot = some v ∧ (t.pc = .check ∨ t.pc = .publish ∨ t.pc = .sendVal x ∨ t.pc = .done))

/-- Invariant of `GetReservationDetails` on a transport where every call
succeeds. -/
def OkInv (eth : Eth) (id : String) (etherWei rplWei reserved duration : Int)
    (s : State) : Prop :=
  match s.main with
  | .start => s = init
  | .panicked => False
  | .select n =>
    s.err = none ∧
    OkTask id id s.durationIDTask ∧
    OkTask etherWei (eth.WeiToEth etherWei) s.etherRequiredTask ∧
    OkTask rplWei (eth.WeiToEth rplWei) s.rplRequiredTask ∧
    OkTask reserved (some reserved) s.reservedTimeTask ∧
    OkTask duration (some duration) s.reservationTimeTask ∧
    n = s.durationIDTask.pc.doneCount + s.etherRequiredTask.pc.doneCount +
        s.rplRequiredTask.pc.doneCount + s.reservedTimeTask.pc.doneCount +
        s.reservationTimeTask.pc.doneCount ∧
    n < 5 ∧
    s.details.Exists = true ∧
    (s.durationIDTask.pc = .done → s.details.StakingDurationID = id) ∧
    (s.etherRequiredTask.pc = .done → s.details.EtherRequired = eth.WeiToEth etherWei) ∧
    (s.rplRequiredTask.pc = .done → s.details.RplRequired = eth.WeiToEth rplWei) ∧
    (s.reservedTimeTask.pc = .done → s.reservedTime = some reserved) ∧
    (s.reservationTimeTask.pc = .done → s.reservationTime = some duration)
  | .returned r =>
    r = ⟨some ⟨true, id, eth.WeiToEth etherWei, eth.WeiToEth rplWei,
      timeUnix (bigInt64 (reserved + duration)) 0⟩, none⟩ ∧
    s.details.StakingDurationID = id ∧
    s.details.EtherRequired = eth.WeiToEth etherWei ∧
    s.details.RplRequired = eth.WeiToEth rplWei ∧
    s.reservedTime = some reserved ∧
    s.reservationTime = some duration

end GetReservationDetails

/-- An instance of the conversion parameter for the examples: the quotient by
`10^18`, and a panic on a nil pointer. -/
def sampleEth : Eth := ⟨fun w => w / 1000000000000000000, none⟩

/-! ## Theorems -/

theorem Task.call_eq_some {ρ β : Type} (reply : Except String ρ) (t : Task ρ β)
    (p : Task ρ β × Option String) :
    t.call reply = some p ↔ t.pc = .call ∧
      p = (match reply with
        | .ok v => (⟨some v, .check⟩, none)
        | .error e => (⟨t.slot, .check⟩, some e)) := by
  rcases t with ⟨slot, pc⟩
  cases pc <;> cases reply <;> simp [Task.call] <;> exact eq_comm

theorem Task.check_eq_some {ρ β : Type} (err : Option String) (t u : Task ρ β) :
    t.check err = some u ↔ t.pc = .check ∧
      u = ⟨t.slot, if err.isSome then .wrap else .publish⟩ := by
  rcases t with ⟨slot, pc⟩
  cases pc <;> simp [Task.check] <;> exact eq_comm

theorem Task.wrap_eq_some {ρ β : Type} (descr : String) (err : Option String)
    (t u : Task ρ β) :
    t.wrap descr err = some u ↔ t.pc = .wrap ∧
      u = ⟨t.slot, match err with
        | some e => .sendErr (descr ++ e)
        | none => .panicked⟩ := by
  rcases t with ⟨slot, pc⟩
  cases pc <;> cases err <;> simp [Task.wrap] <;> exact eq_comm

theorem Task.publish_eq_some {ρ β : Type} (operand : Option ρ → Option β) (t u : Task ρ β) :
    t.publish operand = some u ↔ t.pc = .publish ∧
      u = ⟨t.slot, match operand t.slot with
        | some v => .sendVal v
        | none => .panicked⟩ := by
  rcases t with ⟨slot, pc⟩
  cases pc <;> simp [Task.publish]
  cases operand slot <;> simp <;> exact eq_comm

theorem Task.sentErr_eq_some {ρ β : Type} (t : Task ρ β) (p : String × Task ρ β) :
    t.sentErr = some p ↔ t.pc = .sendErr p.1 ∧ p.2 = ⟨t.slot, .publish⟩ := by
  rcases t with ⟨slot, pc⟩
  rcases p with ⟨m, u⟩
  cases pc <;> simp [Task.sentErr] <;> aesop

theorem Task.sentVal_eq_some {ρ β : Type} (t : Task ρ β) (p : β × Task ρ β) :
    t.sentVal = some p ↔ t.pc = .sendVal p.1 ∧ p.2 = ⟨t.slot, .done⟩ := by
  rcases t with ⟨slot, pc⟩
  rcases p with ⟨m, u⟩
  cases pc <;> simp [Task.sentVal] <;> aesop


@[simp] theorem Pc.doneCount_idle {β : Type} : (Pc.idle : Pc β).doneCount = 0 := rfl
@[simp] theorem Pc.doneCount_call {β : Type} : (Pc.call : Pc β).doneCount = 0 := rfl
@[simp] theorem Pc.doneCount_check {β : Type} : (Pc.check : Pc β).doneCount = 0 := rfl
@[simp] theorem Pc.doneCount_wrap {β : Type} : (Pc.wrap : Pc β).doneCount = 0 := rfl
@[simp] theorem Pc.doneCount_sendErr {β : Type} (m : String) :
    (Pc.sendErr m : Pc β).doneCount = 0 := rfl
@[simp] theorem Pc.doneCount_publish {β : Type} : (Pc.publish : Pc β).doneCount = 0 := rfl
@[simp] theorem Pc.doneCount_sendVal {β : Type} (v : β) : (Pc.sendVal v).doneCount = 0 := rfl
@[simp] theorem Pc.doneCount_done {β : Type} : (Pc.done : Pc β).doneCount = 1 := rfl
@[simp] theorem Pc.doneCount_panicked {β : Type} : (Pc.panicked : Pc β).doneCount = 0 := rfl

theorem Pc.doneCount_le {β : Type} (pc : Pc β) : pc.doneCount ≤ 1 := by
  cases pc <;> simp

theorem Pc.done_or_doneCount {β : Type} (pc : Pc β) : pc = .done ∨ pc.doneCount = 0 := by
  cases pc <;> simp

theorem Pc.doneCount_eq_one {β : Type} (pc : Pc β) : pc.doneCount = 1 ↔ pc = .done := by
  cases pc <;> simp

namespace GetBalances

theorem inv_init (tr : Transport) (eth : Eth) : Inv tr eth init := by
  refine ⟨?_, ?_, ?_⟩
  · unfold TaskInv; cases tr.getBalanceETH <;> simp [init]
  · unfold TaskInv; cases tr.getBalanceRPL <;> simp [init]
  · simp [MainInv, init, loop, Pc.doneCount]

set_option maxHeartbeats 1000000 in
theorem inv_step (tr : Transport) (eth : Eth) (a : Act Field) (s s1 : State)
    (hs : Inv tr eth s) (h : step tr eth a s = some s1) : Inv tr eth s1 := by
  unfold step at h
  by_cases hc : s.crashed = true
  · simp [hc] at h
  simp only [hc, Bool.false_eq_true, if_false] at h
  clear hc
  obtain ⟨h1, h2, h3⟩ := hs
  unfold Inv
  unfold TaskInv at h1 h2 ⊢
  unfold MainInv at h3 ⊢
  rcases s with ⟨⟨eS, eP⟩, eE, ⟨rS, rP⟩, rE, eB, rB, m⟩
  have hb1 := Pc.doneCount_le eP
  have hb2 := Pc.doneCount_le rP
  rcases a with t | t | t | t | t | t <;> cases t <;>
    simp only [stepLive, Option.map_eq_some', Task.call_eq_some, Task.check_eq_some,
      Task.wrap_eq_some, Task.publish_eq_some] at h
  iterate 8
    obtain ⟨p, ⟨hp, rfl⟩, rfl⟩ := h
    cases hE : tr.getBalanceETH <;> cases hR : tr.getBalanceRPL <;> cases m <;>
      simp_all [Main.isReturned, weiOperand]
  iterate 2
    split at h
    · rename_i n v t hv
      simp only [Task.sentVal_eq_some] at hv
      obtain ⟨hv1, rfl⟩ := hv
      simp only [Option.some.injEq] at h
      subst h
      subst hv1
      cases hE : tr.getBalanceETH <;> cases hR : tr.getBalanceRPL <;>
        simp_all [Main.isReturned, loop]
      all_goals first
        | (cases rP <;> simp_all)
        | (cases eP <;> simp_all)
    · simp at h
  iterate 2
    split at h
    · rename_i n v t hv
      simp only [Task.sentErr_eq_some] at hv
      obtain ⟨hv1, rfl⟩ := hv
      simp only [Option.some.injEq] at h
      subst h
      subst hv1
      cases hE : tr.getBalanceETH <;> cases hR : tr.getBalanceRPL <;>
        simp_all [Main.isReturned, loop]
    · simp at h

theorem balances_run_cons (tr : Transport) (eth : Eth) (a : Act Field) (l : List (Act Field))
    (s : State) : run tr eth (a :: l) s = run tr eth l ((step tr eth a s).getD s) := rfl

theorem balances_run_append (tr : Transport) (eth : Eth) (l1 l2 : List (Act Field)) (s : State) :
    run tr eth (l1 ++ l2) s = run tr eth l2 (run tr eth l1 s) := by
  simp [run, List.foldl_append]

theorem inv_run (tr : Transport) (eth : Eth) (sched : List (Act Field)) :
    ∀ s, Inv tr eth s → Inv tr eth (run tr eth sched s) := by
  induction sched with
  | nil => intro s hs; exact hs
  | cons a l ih =>
    intro s hs
    rw [balances_run_cons]
    apply ih
    cases h : step tr eth a s with
    | none => exact hs
    | some s1 => exact inv_step tr eth a s s1 hs h

/-- C1. Fail-fast for `GetBalances`: on a transport where `getBalanceETH` or
`getBalanceRPL` returns an error, under every schedule of the two goroutines
and the `select` loop, whenever the function has returned it has returned
`(nil, nil, err)` with a non-nil `err`; it never returns a pair of balances. -/
theorem fail_fast (tr : Transport) (eth : Eth) (sched : List (Act Field)) (r : Result)
    (hfail : (∃ e, tr.getBalanceETH = .error e) ∨ (∃ e, tr.getBalanceRPL = .error e))
    (hret : (run tr eth sched init).main = .returned r) :
    r.etherBalance = none ∧ r.rplBalance = none ∧ r.err ≠ none := by
  have h := (inv_run tr eth sched init (inv_init tr eth)).2.2
  simp only [MainInv, hret] at h
  rcases h with ⟨v, w, h1, h2, -⟩ | ⟨e, -, rfl⟩ | ⟨e, -, rfl⟩
  · rcases hfail with ⟨e, he⟩ | ⟨e, he⟩
    · rw [h1] at he; cases he
    · rw [h2] at he; cases he
  · simp
  · simp

theorem fail_fast_witness :
    (run ⟨.ok 2500000000000000000, .error "connection refused"⟩
        ⟨fun w => w / 1000000000000000000, none⟩
        [.call .ether, .check .ether, .publish .ether, .recvValue .ether,
         .call .rpl, .check .rpl, .wrap .rpl, .recvError .rpl] init).main =
      .returned ⟨none, none, some "Error retrieving node RPL balance: connection refused"⟩ ∧
    (none : Option Int) = none ∧ (none : Option Int) = none ∧
    some "Error retrieving node RPL balance: connection refused" ≠ none :=
  ⟨by decide,
   fail_fast ⟨.ok 2500000000000000000, .error "connection refused"⟩
     ⟨fun w => w / 1000000000000000000, none⟩
     [.call .ether, .check .ether, .publish .ether, .recvValue .ether,
      .call .rpl, .check .rpl, .wrap .rpl, .recvError .rpl]
     ⟨none, none, some "Error retrieving node RPL balance: connection refused"⟩
     (Or.inr ⟨"connection refused", rfl⟩) (by decide)⟩

/-- Error attribution in `GetBalances`: a returned error is the description of
a fetch whose own call failed, joined with the cause that call returned. -/
theorem balances_error_wrapping (tr : Transport) (eth : Eth) (sched : List (Act Field))
    (r : Result) (m : String) (hret : (run tr eth sched init).main = .returned r)
    (hm : r.err = some m) :
    (∃ e, tr.getBalanceETH = .error e ∧ m = "Error retrieving node ETH balance: " ++ e) ∨
    (∃ e, tr.getBalanceRPL = .error e ∧ m = "Error retrieving node RPL balance: " ++ e) := by
  have h := (inv_run tr eth sched init (inv_init tr eth)).2.2
  simp only [MainInv, hret] at h
  rcases h with ⟨v, w, -, -, rfl, -⟩ | ⟨e, h1, rfl⟩ | ⟨e, h1, rfl⟩
  · simp at hm
  · simp only [Option.some.injEq] at hm
    exact Or.inl ⟨e, h1, hm.symm⟩
  · simp only [Option.some.injEq] at hm
    exact Or.inr ⟨e, h1, hm.symm⟩

theorem balances_returned_of_success (eth : Eth) (e r : Int) (sched : List (Act Field)) (res : Result)
    (hret : (run ⟨.ok e, .ok r⟩ eth sched init).main = .returned res) :
    res = ⟨some (eth.WeiToEth e), some (eth.WeiToEth r), none⟩ := by
  have h := (inv_run ⟨.ok e, .ok r⟩ eth sched init (inv_init _ eth)).2.2
  simp only [MainInv, hret] at h
  rcases h with ⟨v, w, h1, h2, rfl, -⟩ | ⟨e, h1, -⟩ | ⟨e, h1, -⟩
  · cases h1; cases h2; rfl
  · cases h1
  · cases h1

theorem balances_destinations_of_success (eth : Eth) (e r : Int) (sched : List (Act Field))
    (res : Result) (hret : (run ⟨.ok e, .ok r⟩ eth sched init).main = .returned res) :
    (run ⟨.ok e, .ok r⟩ eth sched init).etherBalance = eth.WeiToEth e ∧
    (run ⟨.ok e, .ok r⟩ eth sched init).rplBalance = eth.WeiToEth r := by
  have h := (inv_run ⟨.ok e, .ok r⟩ eth sched init (inv_init _ eth)).2.2
  simp only [MainInv, hret] at h
  rcases h with ⟨v, w, h1, h2, -, h3, h4⟩ | ⟨e, h1, -⟩ | ⟨e, h1, -⟩
  · cases h1; cases h2; exact ⟨h3, h4⟩
  · cases h1
  · cases h1

theorem perm_pair (order : List Field) (h : order.Perm [.ether, .rpl]) :
    order = [.ether, .rpl] ∨ order = [.rpl, .ether] := by
  have hl := h.length_eq
  match order, hl with
  | [x, y], _ =>
    cases x <;> cases y
    · exact absurd h (by decide)
    · exact Or.inl rfl
    · exact Or.inr rfl
    · exact absurd h (by decide)

theorem balances_arrival_returns (eth : Eth) (e r : Int) (order : List Field)
    (h : order.Perm [.ether, .rpl]) :
    (run ⟨.ok e, .ok r⟩ eth (arrival order) init).main =
      .returned ⟨some (eth.WeiToEth e), some (eth.WeiToEth r), none⟩ := by
  rcases perm_pair order h with rfl | rfl <;>
    simp [run, arrival, step, stepLive, init, loop, State.crashed, Pc.isPanicked,
      Main.isPanicked, Task.call, Task.check, Task.publish, Task.sentVal, weiOperand]

end GetBalances


namespace GetReservationDetails

theorem stepLive_returned (tr : Transport) (eth : Eth) (a : Act Field) (s s1 : State)
    (r : Result) (hm : s.main = .returned r) (h : stepLive tr eth a s = some s1) :
    s1.main = .returned r ∧ s1.details = s.details ∧ s1.reservedTime = s.reservedTime ∧
      s1.reservationTime = s.reservationTime := by
  rcases a with t | t | t | t | t | t <;> cases t <;>
    simp only [stepLive, Option.map_eq_some', hm] at h
  iterate 20
    obtain ⟨p, -, rfl⟩ := h
    exact ⟨rfl, rfl, rfl, rfl⟩
  all_goals simp at h

theorem step_returned (tr : Transport) (eth : Eth) (a : Step) (s s1 : State)
    (r : Result) (hm : s.main = .returned r) (h : step tr eth a s = some s1) :
    s1.main = .returned r ∧ s1.details = s.details ∧ s1.reservedTime = s.reservedTime ∧
      s1.reservationTime = s.reservationTime := by
  unfold step at h
  split at h
  · simp at h
  · cases a with
    | gate => simp [gate, hm] at h
    | task a => exact stepLive_returned tr eth a s s1 r hm h


theorem okInv_init (eth : Eth) (id : String) (e r a b : Int) : OkInv eth id e r a b init := by
  simp [OkInv, init]

set_option maxHeartbeats 4000000 in
theorem okInv_step (eth : Eth) (id : String) (e r a b : Int) (act : Step) (s s1 : State)
    (hs : OkInv eth id e r a b s)
    (h : step (Transport.success id e r a b) eth act s = some s1) :
    OkInv eth id e r a b s1 := by
  cases hm : s.main with
  | panicked => simp [OkInv, hm] at hs
  | returned res =>
    obtain ⟨h1, h2, h3, h4⟩ := step_returned _ eth act s s1 res hm h
    simp only [OkInv, hm] at hs
    simp only [OkInv, h1, h2, h3, h4]
    exact hs
  | start =>
    simp only [OkInv, hm] at hs
    subst hs
    cases act with
    | gate =>
      simp [step, State.crashed, gate, init, Transport.success, Pc.isPanicked, Main.isPanicked,
        loop, ReservationDetails.zero] at h
      subst h
      simp [OkInv, OkTask]
    | task a =>
      rcases a with t | t | t | t | t | t <;> cases t <;>
        simp [step, stepLive, init, State.crashed, Pc.isPanicked, Main.isPanicked, Task.call,
          Task.check, Task.wrap, Task.publish, Task.sentVal, Task.sentErr] at h
  | select n =>
    unfold step at h
    by_cases hc : s.crashed = true
    · simp [hc] at h
    simp only [hc, Bool.false_eq_true, if_false] at h
    clear hc
    cases act with
    | gate => simp [gate, hm] at h
    | task a =>
      rcases s with ⟨err, ⟨dS, dP⟩, ⟨eS, eP⟩, ⟨rS, rP⟩, ⟨aS, aP⟩, ⟨bS, bP⟩, det, rt, dt, m, calls⟩
      simp only at hm
      subst hm
      simp only [OkInv, OkTask] at hs
      obtain ⟨herr, hd, he, hr, ha, hb, hn, hn5, hex, h1, h2, h3, h4, h5⟩ := hs
      subst herr
      rcases a with t | t | t | t | t | t <;> cases t <;>
        simp only [stepLive, Option.map_eq_some', Task.call_eq_some, Task.check_eq_some,
          Task.wrap_eq_some, Task.publish_eq_some, Transport.success] at h
      iterate 20
        obtain ⟨p, ⟨hp, rfl⟩, rfl⟩ := h
        simp_all [OkInv, OkTask, weiOperand, strOperand, ptrOperand]
      · split at h
        · rename_i n1 v t hm hv
          simp only [Main.select.injEq] at hm
          subst hm
          simp only [Task.sentVal_eq_some] at hv
          obtain ⟨hv1, rfl⟩ := hv
          simp only [Option.some.injEq] at h
          subst h
          subst hv1
          rcases Pc.done_or_doneCount eP with q0 | q0 <;>
          rcases Pc.done_or_doneCount rP with q1 | q1 <;>
          rcases Pc.done_or_doneCount aP with q2 | q2 <;>
          rcases Pc.done_or_doneCount bP with q3 | q3 <;>
            simp_all [OkInv, OkTask, loop, finish]
        · simp at h
      · split at h
        · rename_i n1 v t hm hv
          simp only [Main.select.injEq] at hm
          subst hm
          simp only [Task.sentVal_eq_some] at hv
          obtain ⟨hv1, rfl⟩ := hv
          simp only [Option.some.injEq] at h
          subst h
          subst hv1
          rcases Pc.done_or_doneCount dP with q0 | q0 <;>
          rcases Pc.done_or_doneCount rP with q1 | q1 <;>
          rcases Pc.done_or_doneCount aP with q2 | q2 <;>
          rcases Pc.done_or_doneCount bP with q3 | q3 <;>
            simp_all [OkInv, OkTask, loop, finish]
        · simp at h
      · split at h
        · rename_i n1 v t hm hv
          simp only [Main.select.injEq] at hm
          subst hm
          simp only [Task.sentVal_eq_some] at hv
          obtain ⟨hv1, rfl⟩ := hv
          simp only [Option.some.injEq] at h
          subst h
          subst hv1
          rcases Pc.done_or_doneCount dP with q0 | q0 <;>
          rcases Pc.done_or_doneCount eP with q1 | q1 <;>
          rcases Pc.done_or_doneCount aP with q2 | q2 <;>
          rcases Pc.done_or_doneCount bP with q3 | q3 <;>
            simp_all [OkInv, OkTask, loop, finish]
        · simp at h
      · split at h
        · rename_i n1 v t hm hv
          simp only [Main.select.injEq] at hm
          subst hm
          simp only [Task.sentVal_eq_some] at hv
          obtain ⟨hv1, rfl⟩ := hv
          simp only [Option.some.injEq] at h
          subst h
          subst hv1
          rcases Pc.done_or_doneCount dP with q0 | q0 <;>
          rcases Pc.done_or_doneCount eP with q1 | q1 <;>
          rcases Pc.done_or_doneCount rP with q2 | q2 <;>
          rcases Pc.done_or_doneCount bP with q3 | q3 <;>
            simp_all [OkInv, OkTask, loop, finish]
        · simp at h
      · split at h
        · rename_i n1 v t hm hv
          simp only [Main.select.injEq] at hm
          subst hm
          simp only [Task.sentVal_eq_some] at hv
          obtain ⟨hv1, rfl⟩ := hv
          simp only [Option.some.injEq] at h
          subst h
          subst hv1
          rcases Pc.done_or_doneCount dP with q0 | q0 <;>
          rcases Pc.done_or_doneCount eP with q1 | q1 <;>
          rcases Pc.done_or_doneCount rP with q2 | q2 <;>
          rcases Pc.done_or_doneCount aP with q3 | q3 <;>
            simp_all [OkInv, OkTask, loop, finish]
        · simp at h
      iterate 5
        split at h
        · rename_i n1 v t hm hv
          simp only [Task.sentErr_eq_some] at hv
          obtain ⟨hv1, rfl⟩ := hv
          simp_all
        · simp at h

theorem run_cons (tr : Transport) (eth : Eth) (a : Step) (l : List Step)
    (s : State) : run tr eth (a :: l) s = run tr eth l ((step tr eth a s).getD s) := rfl

theorem run_append (tr : Transport) (eth : Eth) (l1 l2 : List Step) (s : State) :
    run tr eth (l1 ++ l2) s = run tr eth l2 (run tr eth l1 s) := by
  simp [run, List.foldl_append]

theorem okInv_run (eth : Eth) (id : String) (e r a b : Int) (sched : List Step) :
    ∀ s, OkInv eth id e r a b s →
      OkInv eth id e r a b (run (Transport.success id e r a b) eth sched s) := by
  induction sched with
  | nil => intro s hs; exact hs
  | cons act l ih =>
    intro s hs
    rw [run_cons]
    apply ih
    cases h : step (Transport.success id e r a b) eth act s with
    | none => exact hs
    | some s1 => exact okInv_step eth id e r a b act s s1 hs h

theorem returned_of_success (eth : Eth) (id : String) (e r a b : Int) (sched : List Step)
    (res : Result)
    (hret : (run (Transport.success id e r a b) eth sched init).main = .returned res) :
    res = ⟨some ⟨true, id, eth.WeiToEth e, eth.WeiToEth r,
      timeUnix (bigInt64 (a + b)) 0⟩, none⟩ := by
  have h := okInv_run eth id e r a b sched init (okInv_init eth id e r a b)
  simp only [OkInv, hret] at h
  exact h.1

theorem destinations_of_success (eth : Eth) (id : String) (e r a b : Int) (sched : List Step)
    (res : Result)
    (hret : (run (Transport.success id e r a b) eth sched init).main = .returned res) :
    (run (Transport.success id e r a b) eth sched init).details.StakingDurationID = id ∧
    (run (Transport.success id e r a b) eth sched init).details.EtherRequired =
      eth.WeiToEth e ∧
    (run (Transport.success id e r a b) eth sched init).details.RplRequired =
      eth.WeiToEth r ∧
    (run (Transport.success id e r a b) eth sched init).reservedTime = some a ∧
    (run (Transport.success id e r a b) eth sched init).reservationTime = some b := by
  have h := okInv_run eth id e r a b sched init (okInv_init eth id e r a b)
  simp only [OkInv, hret] at h
  exact h.2

theorem Pc.erase_eq_sendVal {β : Type} (pc : Pc β) :
    pc.erase = .sendVal () ↔ ∃ x, pc = .sendVal x := by
  cases pc <;> simp [Pc.erase]

theorem Pc.erase_eq_done {β : Type} (pc : Pc β) : pc.erase = .done ↔ pc = .done := by
  cases pc <;> simp [Pc.erase]

theorem prepared (eth : Eth) (id : String) (e r a b : Int) :
    (run (Transport.success id e r a b) eth (arrival []) init).main = .select 0 ∧
    ∀ f, (run (Transport.success id e r a b) eth (arrival []) init).pc f = .sendVal () := by
  refine ⟨?_, fun f => ?_⟩
  · simp [run, arrival, upToSend, step, stepLive, gate, init, loop, State.crashed, Pc.isPanicked,
      Main.isPanicked, Task.call, Task.check, Task.publish, weiOperand, strOperand, ptrOperand,
      Transport.success, ReservationDetails.zero]
  · cases f <;>
    simp [run, arrival, upToSend, step, stepLive, gate, init, loop, State.crashed, Pc.isPanicked,
      Main.isPanicked, Task.call, Task.check, Task.publish, weiOperand, strOperand, ptrOperand,
      Transport.success, ReservationDetails.zero, State.pc, Pc.erase]

end GetReservationDetails

namespace GetReservationDetails

theorem recv_ok (eth : Eth) (id : String) (e r a b : Int) (s : State) (n : Nat) (f : Field)
    (hs : OkInv eth id e r a b s) (hm : s.main = .select n) (hf : s.pc f = .sendVal ()) :
    ∃ s1, step (Transport.success id e r a b) eth (.task (.recvValue f)) s = some s1 ∧
      s1.pc f = .done ∧ (∀ g, g ≠ f → s1.pc g = s.pc g) ∧
      (∀ g, g ≠ f → s.pc g = .sendVal () → ∃ k, s1.main = .select k) := by
  rcases s with ⟨err, ⟨dS, dP⟩, ⟨eS, eP⟩, ⟨rS, rP⟩, ⟨aS, aP⟩, ⟨bS, bP⟩, det, rt, dt, m, calls⟩
  simp only at hm
  subst hm
  simp only [OkInv, OkTask] at hs
  obtain ⟨herr, hd, he, hr, ha, hb, hn, hn5, hex, h1, h2, h3, h4, h5⟩ := hs
  have c1 := Pc.doneCount_le dP
  have c2 := Pc.doneCount_le eP
  have c3 := Pc.doneCount_le rP
  have c4 := Pc.doneCount_le aP
  have c5 := Pc.doneCount_le bP
  have hc : State.crashed ⟨err, ⟨dS, dP⟩, ⟨eS, eP⟩, ⟨rS, rP⟩, ⟨aS, aP⟩, ⟨bS, bP⟩, det, rt, dt,
      .select n, calls⟩ = false := by
    simp only [State.crashed, Main.isPanicked]
    rcases hd with ⟨h, -⟩ | ⟨-, h | h | h | h⟩ <;>
    rcases he with ⟨h', -⟩ | ⟨-, h' | h' | h' | h'⟩ <;>
    rcases hr with ⟨h'', -⟩ | ⟨-, h'' | h'' | h'' | h''⟩ <;>
    simp [h, h', h'', Pc.isPanicked] <;>
    rcases ha with ⟨k, -⟩ | ⟨-, k | k | k | k⟩ <;>
    rcases hb with ⟨k', -⟩ | ⟨-, k' | k' | k' | k'⟩ <;>
    simp [k, k', Pc.isPanicked]
  cases f
  · simp only [State.pc, Pc.erase_eq_sendVal] at hf
    obtain ⟨x, hx⟩ := hf
    subst hx
    refine ⟨⟨err, ⟨dS, .done⟩, ⟨eS, eP⟩, ⟨rS, rP⟩, ⟨aS, aP⟩, ⟨bS, bP⟩, { det with StakingDurationID := x }, rt, dt,
      loop ({ det with StakingDurationID := x }) rt dt (n + 1), calls⟩, ?_, ?_, ?_, ?_⟩
    · simp only [step, hc, Bool.false_eq_true, if_false, stepLive, Task.sentVal]
    · simp [State.pc, Pc.erase]
    · intro g hg
      cases g <;> simp [State.pc] at hg ⊢
    · intro g hg hsv
      cases g <;> simp [State.pc, Pc.erase_eq_sendVal] at hg hsv <;>
        obtain ⟨y, hy⟩ := hsv <;> subst hy <;> simp at hn <;>
        exact ⟨n + 1, by simp [loop]; omega⟩
  · simp only [State.pc, Pc.erase_eq_sendVal] at hf
    obtain ⟨x, hx⟩ := hf
    subst hx
    refine ⟨⟨err, ⟨dS, dP⟩, ⟨eS, .done⟩, ⟨rS, rP⟩, ⟨aS, aP⟩, ⟨bS, bP⟩, { det with EtherRequired := x }, rt, dt,
      loop ({ det with EtherRequired := x }) rt dt (n + 1), calls⟩, ?_, ?_, ?_, ?_⟩
    · simp only [step, hc, Bool.false_eq_true, if_false, stepLive, Task.sentVal]
    · simp [State.pc, Pc.erase]
    · intro g hg
      cases g <;> simp [State.pc] at hg ⊢
    · intro g hg hsv
      cases g <;> simp [State.pc, Pc.erase_eq_sendVal] at hg hsv <;>
        obtain ⟨y, hy⟩ := hsv <;> subst hy <;> simp at hn <;>
        exact ⟨n + 1, by simp [loop]; omega⟩
  · simp only [State.pc, Pc.erase_eq_sendVal] at hf
    obtain ⟨x, hx⟩ := hf
    subst hx
    refine ⟨⟨err, ⟨dS, dP⟩, ⟨eS, eP⟩, ⟨rS, .done⟩, ⟨aS, aP⟩, ⟨bS, bP⟩, { det with RplRequired := x }, rt, dt,
      loop ({ det with RplRequired := x }) rt dt (n + 1), calls⟩, ?_, ?_, ?_, ?_⟩
    · simp only [step, hc, Bool.false_eq_true, if_false, stepLive, Task.sentVal]
    · simp [State.pc, Pc.erase]
    · intro g hg
      cases g <;> simp [State.pc] at hg ⊢
    · intro g hg hsv
      cases g <;> simp [State.pc, Pc.erase_eq_sendVal] at hg hsv <;>
        obtain ⟨y, hy⟩ := hsv <;> subst hy <;> simp at hn <;>
        exact ⟨n + 1, by simp [loop]; omega⟩
  · simp only [State.pc, Pc.erase_eq_sendVal] at hf
    obtain ⟨x, hx⟩ := hf
    subst hx
    refine ⟨⟨err, ⟨dS, dP⟩, ⟨eS, eP⟩, ⟨rS, rP⟩, ⟨aS, .done⟩, ⟨bS, bP⟩, det, x, dt,
      loop (det) x dt (n + 1), calls⟩, ?_, ?_, ?_, ?_⟩
    · simp only [step, hc, Bool.false_eq_true, if_false, stepLive, Task.sentVal]
    · simp [State.pc, Pc.erase]
    · intro g hg
      cases g <;> simp [State.pc] at hg ⊢
    · intro g hg hsv
      cases g <;> simp [State.pc, Pc.erase_eq_sendVal] at hg hsv <;>
        obtain ⟨y, hy⟩ := hsv <;> subst hy <;> simp at hn <;>
        exact ⟨n + 1, by simp [loop]; omega⟩
  · simp only [State.pc, Pc.erase_eq_sendVal] at hf
    obtain ⟨x, hx⟩ := hf
    subst hx
    refine ⟨⟨err, ⟨dS, dP⟩, ⟨eS, eP⟩, ⟨rS, rP⟩, ⟨aS, aP⟩, ⟨bS, .done⟩, det, rt, x,
      loop (det) rt x (n + 1), calls⟩, ?_, ?_, ?_, ?_⟩
    · simp only [step, hc, Bool.false_eq_true, if_false, stepLive, Task.sentVal]
    · simp [State.pc, Pc.erase]
    · intro g hg
      cases g <;> simp [State.pc] at hg ⊢
    · intro g hg hsv
      cases g <;> simp [State.pc, Pc.erase_eq_sendVal] at hg hsv <;>
        obtain ⟨y, hy⟩ := hsv <;> subst hy <;> simp at hn <;>
        exact ⟨n + 1, by simp [loop]; omega⟩

theorem deliver (eth : Eth) (id : String) (e r a b : Int) :
    ∀ (L : List Field) (s : State), OkInv eth id e r a b s → L.Nodup →
      (∀ f ∈ L, s.pc f = .sendVal ()) → (L ≠ [] → ∃ n, s.main = .select n) →
      OkInv eth id e r a b
        (run (Transport.success id e r a b) eth (L.map fun f => .task (.recvValue f)) s) ∧
      (∀ f ∈ L,
        (run (Transport.success id e r a b) eth (L.map fun f => .task (.recvValue f)) s).pc f
          = .done) ∧
      (∀ f, f ∉ L →
        (run (Transport.success id e r a b) eth (L.map fun f => .task (.recvValue f)) s).pc f
          = s.pc f) := by
  intro L
  induction L with
  | nil =>
    intro s hs _ _ _
    exact ⟨hs, by simp, fun f _ => rfl⟩
  | cons f L ih =>
    intro s hs hnd hsv hsel
    obtain ⟨n, hn⟩ := hsel (by simp)
    obtain ⟨s1, h1, h2, h3, h4⟩ := recv_ok eth id e r a b s n f hs hn (hsv f (by simp))
    have hs1 := okInv_step eth id e r a b _ s s1 hs h1
    rw [List.nodup_cons] at hnd
    have hne : ∀ g ∈ L, g ≠ f := fun g hg hgf => hnd.1 (hgf ▸ hg)
    have ih1 := ih s1 hs1 hnd.2
      (fun g hg => by rw [h3 g (hne g hg)]; exact hsv g (by simp [hg]))
      (fun hL => by
        obtain ⟨g, hg⟩ := List.exists_mem_of_ne_nil L hL
        exact h4 g (hne g hg) (hsv g (by simp [hg])))
    simp only [List.map_cons, run_cons, h1, Option.getD_some]
    refine ⟨ih1.1, ?_, ?_⟩
    · intro x hx
      rcases List.mem_cons.mp hx with rfl | hx
      · rw [ih1.2.2 x hnd.1]; exact h2
      · exact ih1.2.1 x hx
    · intro x hx
      simp only [List.mem_cons, not_or] at hx
      rw [ih1.2.2 x hx.2]
      exact h3 x hx.1

theorem arrival_split (order : List Field) :
    arrival order = arrival [] ++ order.map fun f => .task (.recvValue f) := by
  simp [arrival]

theorem arrival_returns (eth : Eth) (id : String) (e r a b : Int) (order : List Field)
    (h : order.Perm Field.all) :
    (run (Transport.success id e r a b) eth (arrival order) init).main =
      .returned ⟨some ⟨true, id, eth.WeiToEth e, eth.WeiToEth r,
        timeUnix (bigInt64 (a + b)) 0⟩, none⟩ := by
  rw [arrival_split, run_append]
  obtain ⟨hm, hp⟩ := prepared eth id e r a b
  generalize arrival [] = p at hm hp ⊢
  have h0 := okInv_run eth id e r a b p init (okInv_init eth id e r a b)
  have hnd : order.Nodup := h.nodup_iff.mpr (by decide)
  obtain ⟨k1, k2, -⟩ := deliver eth id e r a b order _ h0 hnd (fun f _ => hp f)
    (fun _ => ⟨0, hm⟩)
  have hall : ∀ f, f ∈ order := fun f => h.mem_iff.mpr (by cases f <;> simp [Field.all])
  generalize run (Transport.success id e r a b) eth (order.map fun f => .task (.recvValue f))
    (run (Transport.success id e r a b) eth p init) = s at k1 k2 ⊢
  have d1 := k2 .durationID (hall _)
  have d2 := k2 .etherRequired (hall _)
  have d3 := k2 .rplRequired (hall _)
  have d4 := k2 .reservedTime (hall _)
  have d5 := k2 .reservationTime (hall _)
  simp only [State.pc, Pc.erase_eq_done] at d1 d2 d3 d4 d5
  cases hmain : s.main with
  | start =>
    simp only [OkInv, hmain] at k1
    subst k1
    simp [init] at d1
  | panicked => simp [OkInv, hmain] at k1
  | select n =>
    simp only [OkInv, hmain, d1, d2, d3, d4, d5, Pc.doneCount_done] at k1
    omega
  | returned res =>
    simp only [OkInv, hmain] at k1
    rw [k1.1]

end GetReservationDetails

theorem wrapInt64_of_range (x : Int) (hlo : -2 ^ 63 ≤ x) (hhi : x ≤ 2 ^ 63 - 1) :
    wrapInt64 x = x := by
  unfold wrapInt64
  norm_num at hlo hhi ⊢
  omega

theorem bigInt64_of_range (x : Int) (hlo : -2 ^ 63 ≤ x) (hhi : x ≤ 2 ^ 63 - 1) :
    bigInt64 x = x := by
  unfold bigInt64 wrapInt64
  norm_num at hlo hhi ⊢
  rcases abs_cases x with ⟨h1, h2⟩ | ⟨h1, h2⟩ <;> rw [h1] <;> split <;> omega

theorem timeUnix_zero_nsec (sec : Int) : timeUnix sec 0 = ⟨sec, 0⟩ := by
  simp [timeUnix]

namespace GetReservationDetails

theorem step_task_init (tr : Transport) (eth : Eth) (a : Act Field) :
    step tr eth (.task a) init = none := by
  rcases a with t | t | t | t | t | t <;> cases t <;>
    simp [step, stepLive, init, Task.call, Task.check, Task.wrap, Task.publish,
      Task.sentVal, Task.sentErr]

theorem run_init_of_not_gate (tr : Transport) (eth : Eth) (sched : List Step)
    (h : Step.gate ∉ sched) : run tr eth sched init = init := by
  induction sched with
  | nil => rfl
  | cons a l ih =>
    simp only [List.mem_cons, not_or] at h
    cases a with
    | gate => exact absurd rfl h.1
    | task a => rw [run_cons, step_task_init]; exact ih h.2

/-- State in which the function has returned from the `if !details.Exists`. -/
theorem step_gate_false (tr : Transport) (eth : Eth)
    (h : tr.getHasDepositReservation = .ok false) :
    step tr eth .gate init =
      some { init with
        calls := ["getHasDepositReservation"],
        main := .returned ⟨some ⟨false, "", 0, 0, Time.zero⟩, none⟩ } := by
  simp [step, gate, init, h, State.crashed, Pc.isPanicked, Main.isPanicked,
    ReservationDetails.zero]

theorem step_idle_returned (tr : Transport) (eth : Eth) (a : Step) (s : State) (r : Result)
    (hm : s.main = .returned r)
    (h1 : s.durationIDTask.pc = .idle) (h2 : s.etherRequiredTask.pc = .idle)
    (h3 : s.rplRequiredTask.pc = .idle) (h4 : s.reservedTimeTask.pc = .idle)
    (h5 : s.reservationTimeTask.pc = .idle) : step tr eth a s = none := by
  cases a with
  | gate => simp [step, gate, hm]
  | task a =>
    rcases a with t | t | t | t | t | t <;> cases t <;>
      simp [step, stepLive, Task.call, Task.check, Task.wrap, Task.publish,
        Task.sentVal, Task.sentErr, h1, h2, h3, h4, h5]

theorem run_idle_returned (tr : Transport) (eth : Eth) (sched : List Step) (s : State)
    (r : Result) (hm : s.main = .returned r)
    (h1 : s.durationIDTask.pc = .idle) (h2 : s.etherRequiredTask.pc = .idle)
    (h3 : s.rplRequiredTask.pc = .idle) (h4 : s.reservedTimeTask.pc = .idle)
    (h5 : s.reservationTimeTask.pc = .idle) : run tr eth sched s = s := by
  induction sched with
  | nil => rfl
  | cons a l ih => rw [run_cons, step_idle_returned tr eth a s r hm h1 h2 h3 h4 h5]; exact ih

theorem run_gate_false (tr : Transport) (eth : Eth) (sched : List Step)
    (h : tr.getHasDepositReservation = .ok false) (hg : Step.gate ∈ sched) :
    run tr eth sched init =
      { init with
        calls := ["getHasDepositReservation"],
        main := .returned ⟨some ⟨false, "", 0, 0, Time.zero⟩, none⟩ } := by
  induction sched with
  | nil => simp at hg
  | cons a l ih =>
    cases a with
    | gate =>
      rw [run_cons, step_gate_false tr eth h]
      exact run_idle_returned tr eth l _ _ rfl rfl rfl rfl rfl rfl
    | task a =>
      rw [run_cons, step_task_init]
      apply ih
      simpa using hg

/-- Error attribution for the gating call: when it fails, the function returns
its description joined with the cause, and no record. -/
theorem gate_error_wrapping (tr : Transport) (eth : Eth) (sched : List Step) (e : String)
    (h : tr.getHasDepositReservation = .error e) (hg : Step.gate ∈ sched) :
    (run tr eth sched init).main =
      .returned ⟨none, some ("Error retrieving deposit reservation status: " ++ e)⟩ := by
  induction sched with
  | nil => simp at hg
  | cons a l ih =>
    cases a with
    | gate =>
      have hs : step tr eth .gate init =
          some { init with
            calls := ["getHasDepositReservation"], err := some e,
            main := .returned
              ⟨none, some ("Error retrieving deposit reservation status: " ++ e)⟩ } := by
        simp [step, gate, init, h, State.crashed, Pc.isPanicked, Main.isPanicked]
      rw [run_cons, hs, Option.getD_some,
        run_idle_returned tr eth l _ _ rfl rfl rfl rfl rfl rfl]
    | task a =>
      rw [run_cons, step_task_init]
      apply ih
      simpa using hg

/-- C2. Gating short-circuit: when `getHasDepositReservation` answers false
without error, then under every schedule in which the function has executed
its first statements it has returned a nil error and the record with
`Exists = false` and every other field at its zero value, and the calls issued
on the transport are exactly the gating call; before that nothing has been
called and no goroutine exists. -/
theorem gating_short_circuit (tr : Transport) (eth : Eth) (sched : List Step)
    (h : tr.getHasDepositReservation = .ok false) :
    (Step.gate ∈ sched →
      (run tr eth sched init).main = .returned ⟨some ⟨false, "", 0, 0, Time.zero⟩, none⟩ ∧
      (run tr eth sched init).calls = ["getHasDepositReservation"]) ∧
    (Step.gate ∉ sched →
      (run tr eth sched init).main = .start ∧ (run tr eth sched init).calls = []) := by
  constructor
  · intro hg
    rw [run_gate_false tr eth sched h hg]
    exact ⟨rfl, rfl⟩
  · intro hg
    rw [run_init_of_not_gate tr eth sched hg]
    exact ⟨rfl, rfl⟩

theorem gating_short_circuit_witness :
    ((Step.gate ∈ [Step.gate, .task (.call .durationID), .task (.recvValue .rplRequired)] →
      (run ⟨.ok false, .ok "3m", .ok 1, .ok 2, .ok 3, .ok 4⟩ ⟨fun w => w, none⟩
        [Step.gate, .task (.call .durationID), .task (.recvValue .rplRequired)] init).main =
          .returned ⟨some ⟨false, "", 0, 0, Time.zero⟩, none⟩ ∧
      (run ⟨.ok false, .ok "3m", .ok 1, .ok 2, .ok 3, .ok 4⟩ ⟨fun w => w, none⟩
        [Step.gate, .task (.call .durationID), .task (.recvValue .rplRequired)] init).calls =
          ["getHasDepositReservation"]) ∧
    (Step.gate ∉ [Step.gate, .task (.call .durationID), .task (.recvValue .rplRequired)] →
      (run ⟨.ok false, .ok "3m", .ok 1, .ok 2, .ok 3, .ok 4⟩ ⟨fun w => w, none⟩
        [Step.gate, .task (.call .durationID), .task (.recvValue .rplRequired)] init).main =
          .start ∧
      (run ⟨.ok false, .ok "3m", .ok 1, .ok 2, .ok 3, .ok 4⟩ ⟨fun w => w, none⟩
        [Step.gate, .task (.call .durationID), .task (.recvValue .rplRequired)] init).calls =
          [])) :=
  gating_short_circuit ⟨.ok false, .ok "3m", .ok 1, .ok 2, .ok 3, .ok 4⟩ ⟨fun w => w, none⟩
    [Step.gate, .task (.call .durationID), .task (.recvValue .rplRequired)] rfl


set_option maxRecDepth 100000 in
/-- C3 (counterexample). With `reservedTime = 2^63 - 1` and
`reservationDuration = 1`, both non-negative, the function returns an
`ExpiryTime` at epoch second `-2^63`, not `2^63`. -/
theorem expiry_wraps_at_int64 :
    (0 : Int) ≤ 9223372036854775807 ∧ (0 : Int) ≤ 1 ∧
    (run (Transport.success "3m" 0 0 9223372036854775807 1) ⟨fun w => w, none⟩
      (arrival Field.all) init).main =
      .returned ⟨some ⟨true, "3m", 0, 0, ⟨-9223372036854775808, 0⟩⟩, none⟩ ∧
    (-9223372036854775808 : Int) ≠ 9223372036854775807 + 1 :=
  ⟨by decide, by decide, by decide, by decide⟩

/-- C3 (amended). For non-negative `reservedTime` and `reservationDuration`
whose sum is at most `2^63 - 1`, the statements after the loop return the
record with `ExpiryTime` at epoch second `reservedTime + reservationDuration`
exactly (and zero nanoseconds), with a nil error. -/
theorem expiry_of_nonneg (details : ReservationDetails) (reservedTime reservationTime : Int)
    (h1 : 0 ≤ reservedTime) (h2 : 0 ≤ reservationTime)
    (h3 : reservedTime + reservationTime ≤ 2 ^ 63 - 1) :
    finish details (some reservedTime) (some reservationTime) =
      .returned ⟨some { details with ExpiryTime := ⟨reservedTime + reservationTime, 0⟩ },
        none⟩ := by
  have hlo : -2 ^ 63 ≤ reservedTime + reservationTime := by
    have : (0 : Int) ≤ reservedTime + reservationTime := by omega
    norm_num
    omega
  simp [finish, bigInt64_of_range _ hlo h3, timeUnix_zero_nsec]

theorem expiry_of_nonneg_witness :
    (0 : Int) ≤ 0 ∧ (0 : Int) ≤ 9223372036854775807 ∧
    (0 : Int) + 9223372036854775807 ≤ 2 ^ 63 - 1 ∧
    finish ⟨true, "3m", 5, 6, Time.zero⟩ (some 0) (some 9223372036854775807) =
      .returned ⟨some { (⟨true, "3m", 5, 6, Time.zero⟩ : ReservationDetails) with
        ExpiryTime := ⟨0 + 9223372036854775807, 0⟩ }, none⟩ :=
  ⟨by decide, by decide, by decide,
   expiry_of_nonneg ⟨true, "3m", 5, 6, Time.zero⟩ 0 9223372036854775807
     (by decide) (by decide) (by decide)⟩

/-- C10. Expiry within the signed 64-bit range: on a transport where the gating
call answers true and the five field calls succeed, with `reservedTime` and
`reservationDuration` any integers whose sum `s` satisfies
`-2^63 <= s <= 2^63 - 1`, under every schedule whenever the function has
returned it has returned a nil error and a record whose `ExpiryTime` is at
epoch second `s` with zero nanoseconds; and it does return (for instance under
the schedule that receives the values in the order of the `go` statements). -/
theorem expiry_in_int64_range (eth : Eth) (id : String) (e r reservedTime reservationTime : Int)
    (hlo : -2 ^ 63 ≤ reservedTime + reservationTime)
    (hhi : reservedTime + reservationTime ≤ 2 ^ 63 - 1) :
    (∀ sched res,
      (run (Transport.success id e r reservedTime reservationTime) eth sched init).main =
        .returned res →
      res.err = none ∧
      ∃ d, res.details = some d ∧ d.ExpiryTime = ⟨reservedTime + reservationTime, 0⟩) ∧
    ∃ d, (run (Transport.success id e r reservedTime reservationTime) eth (arrival Field.all)
        init).main = .returned ⟨some d, none⟩ ∧
      d.ExpiryTime = ⟨reservedTime + reservationTime, 0⟩ := by
  constructor
  · intro sched res hret
    rw [returned_of_success eth id e r _ _ sched res hret]
    exact ⟨rfl, _, rfl, by simp [bigInt64_of_range _ hlo hhi, timeUnix_zero_nsec]⟩
  · refine ⟨_, arrival_returns eth id e r _ _ Field.all (List.Perm.refl _), ?_⟩
    simp [bigInt64_of_range _ hlo hhi, timeUnix_zero_nsec]

theorem expiry_in_int64_range_witness :
    (∀ sched res,
      (run (Transport.success "3m" 16000000000000000000 0 1000 500)
        ⟨fun w => w / 1000000000000000000, none⟩ sched init).main = .returned res →
      res.err = none ∧ ∃ d, res.details = some d ∧ d.ExpiryTime = ⟨1000 + 500, 0⟩) ∧
    ∃ d, (run (Transport.success "3m" 16000000000000000000 0 1000 500)
        ⟨fun w => w / 1000000000000000000, none⟩ (arrival Field.all) init).main =
        .returned ⟨some d, none⟩ ∧
      d.ExpiryTime = ⟨1000 + 500, 0⟩ :=
  expiry_in_int64_range ⟨fun w => w / 1000000000000000000, none⟩ "3m" 16000000000000000000 0
    1000 500 (by decide) (by decide)

end GetReservationDetails

theorem Pc.isSending_erase {β : Type} (pc : Pc β) : pc.erase.isSending = pc.isSending := by
  cases pc <;> rfl

namespace GetBalances

theorem balances_step_after_return (tr : Transport) (eth : Eth) (a : Act Field) (s s1 : State)
    (r : Result) (hm : s.main = .returned r) (h : step tr eth a s = some s1) :
    s1.main = .returned r ∧ ∀ f, (s.pc f).isSending = true → s1.pc f = s.pc f := by
  unfold step at h
  by_cases hc : s.crashed = true
  · simp [hc] at h
  simp only [hc, Bool.false_eq_true, if_false] at h
  rcases s with ⟨⟨eS, eP⟩, eE, ⟨rS, rP⟩, rE, eB, rB, m⟩
  simp only at hm
  subst hm
  rcases a with t | t | t | t | t | t <;> cases t <;>
    simp only [stepLive, Option.map_eq_some', Task.call_eq_some, Task.check_eq_some,
      Task.wrap_eq_some, Task.publish_eq_some] at h
  iterate 8
    obtain ⟨p, ⟨hp, rfl⟩, rfl⟩ := h
    subst hp
    refine ⟨rfl, fun f hf => ?_⟩
    cases f <;> simp_all [State.pc, Pc.erase, Pc.isSending]
  all_goals simp at h

theorem balances_run_after_return (tr : Transport) (eth : Eth) (sched : List (Act Field)) :
    ∀ (s : State) (r : Result), s.main = .returned r →
      (run tr eth sched s).main = .returned r ∧
      ∀ f, (s.pc f).isSending = true → (run tr eth sched s).pc f = s.pc f := by
  induction sched with
  | nil => intro s r hm; exact ⟨hm, fun _ _ => rfl⟩
  | cons a l ih =>
    intro s r hm
    rw [balances_run_cons]
    cases h : step tr eth a s with
    | none => exact ih s r hm
    | some s1 =>
      obtain ⟨h1, h2⟩ := balances_step_after_return tr eth a s s1 r hm h
      obtain ⟨k1, k2⟩ := ih s1 r h1
      refine ⟨k1, fun f hf => ?_⟩
      rw [Option.getD_some, k2 f (by rw [h2 f hf]; exact hf), h2 f hf]

theorem balances_recv_enabled (tr : Transport) (eth : Eth) (s : State) (n : Nat) (f : Field)
    (hm : s.main = .select n) (hc : s.crashed = false) (hf : (s.pc f).isSending = true) :
    ∃ s1, (step tr eth (.recvValue f) s = some s1 ∧ s1.pc f = .done) ∨
      (step tr eth (.recvError f) s = some s1 ∧ s1.pc f = .publish) := by
  rcases s with ⟨⟨eS, eP⟩, eE, ⟨rS, rP⟩, rE, eB, rB, m⟩
  simp only at hm
  subst hm
  cases f
  · cases eP <;> simp [State.pc, Pc.erase, Pc.isSending] at hf
    · exact ⟨_, Or.inr ⟨by simp [step, hc, stepLive, Task.sentErr]; rfl,
        by simp [State.pc, Pc.erase]⟩⟩
    · exact ⟨_, Or.inl ⟨by simp [step, hc, stepLive, Task.sentVal]; rfl,
        by simp [State.pc, Pc.erase]⟩⟩
  · cases rP <;> simp [State.pc, Pc.erase, Pc.isSending] at hf
    · exact ⟨_, Or.inr ⟨by simp [step, hc, stepLive, Task.sentErr]; rfl,
        by simp [State.pc, Pc.erase]⟩⟩
    · exact ⟨_, Or.inl ⟨by simp [step, hc, stepLive, Task.sentVal]; rfl,
        by simp [State.pc, Pc.erase]⟩⟩

end GetBalances

namespace GetReservationDetails

theorem step_after_return (tr : Transport) (eth : Eth) (a : Step) (s s1 : State)
    (r : Result) (hm : s.main = .returned r) (h : step tr eth a s = some s1) :
    s1.main = .returned r ∧ ∀ f, (s.pc f).isSending = true → s1.pc f = s.pc f := by
  unfold step at h
  by_cases hc : s.crashed = true
  · simp [hc] at h
  simp only [hc, Bool.false_eq_true, if_false] at h
  cases a with
  | gate => simp [gate, hm] at h
  | task a =>
    rcases s with ⟨err, ⟨dS, dP⟩, ⟨eS, eP⟩, ⟨rS, rP⟩, ⟨aS, aP⟩, ⟨bS, bP⟩, det, rt, dt, m, calls⟩
    simp only at hm
    subst hm
    rcases a with t | t | t | t | t | t <;> cases t <;>
      simp only [stepLive, Option.map_eq_some', Task.call_eq_some, Task.check_eq_some,
        Task.wrap_eq_some, Task.publish_eq_some] at h
    iterate 20
      obtain ⟨p, ⟨hp, rfl⟩, rfl⟩ := h
      subst hp
      refine ⟨rfl, fun f hf => ?_⟩
      cases f <;> simp_all [State.pc, Pc.erase, Pc.isSending]
    all_goals simp at h

theorem run_after_return (tr : Transport) (eth : Eth) (sched : List Step) :
    ∀ (s : State) (r : Result), s.main = .returned r →
      (run tr eth sched s).main = .returned r ∧
      ∀ f, (s.pc f).isSending = true → (run tr eth sched s).pc f = s.pc f := by
  induction sched with
  | nil => intro s r hm; exact ⟨hm, fun _ _ => rfl⟩
  | cons a l ih =>
    intro s r hm
    rw [run_cons]
    cases h : step tr eth a s with
    | none => exact ih s r hm
    | some s1 =>
      obtain ⟨h1, h2⟩ := step_after_return tr eth a s s1 r hm h
      obtain ⟨k1, k2⟩ := ih s1 r h1
      refine ⟨k1, fun f hf => ?_⟩
      rw [Option.getD_some, k2 f (by rw [h2 f hf]; exact hf), h2 f hf]

theorem recv_enabled (tr : Transport) (eth : Eth) (s : State) (n : Nat) (f : Field)
    (hm : s.main = .select n) (hc : s.crashed = false) (hf : (s.pc f).isSending = true) :
    ∃ s1, (step tr eth (.task (.recvValue f)) s = some s1 ∧ s1.pc f = .done) ∨
      (step tr eth (.task (.recvError f)) s = some s1 ∧ s1.pc f = .publish) := by
  rcases s with ⟨err, ⟨dS, dP⟩, ⟨eS, eP⟩, ⟨rS, rP⟩, ⟨aS, aP⟩, ⟨bS, bP⟩, det, rt, dt, m, calls⟩
  simp only at hm
  subst hm
  cases f
  · cases dP <;> simp [State.pc, Pc.erase, Pc.isSending] at hf
    · exact ⟨_, Or.inr ⟨by simp [step, hc, stepLive, Task.sentErr]; rfl,
        by simp [State.pc, Pc.erase]⟩⟩
    · exact ⟨_, Or.inl ⟨by simp [step, hc, stepLive, Task.sentVal]; rfl,
        by simp [State.pc, Pc.erase]⟩⟩
  · cases eP <;> simp [State.pc, Pc.erase, Pc.isSending] at hf
    · exact ⟨_, Or.inr ⟨by simp [step, hc, stepLive, Task.sentErr]; rfl,
        by simp [State.pc, Pc.erase]⟩⟩
    · exact ⟨_, Or.inl ⟨by simp [step, hc, stepLive, Task.sentVal]; rfl,
        by simp [State.pc, Pc.erase]⟩⟩
  · cases rP <;> simp [State.pc, Pc.erase, Pc.isSending] at hf
    · exact ⟨_, Or.inr ⟨by simp [step, hc, stepLive, Task.sentErr]; rfl,
        by simp [State.pc, Pc.erase]⟩⟩
    · exact ⟨_, Or.inl ⟨by simp [step, hc, stepLive, Task.sentVal]; rfl,
        by simp [State.pc, Pc.erase]⟩⟩
  · cases aP <;> simp [State.pc, Pc.erase, Pc.isSending] at hf
    · exact ⟨_, Or.inr ⟨by simp [step, hc, stepLive, Task.sentErr]; rfl,
        by simp [State.pc, Pc.erase]⟩⟩
    · exact ⟨_, Or.inl ⟨by simp [step, hc, stepLive, Task.sentVal]; rfl,
        by simp [State.pc, Pc.erase]⟩⟩
  · cases bP <;> simp [State.pc, Pc.erase, Pc.isSending] at hf
    · exact ⟨_, Or.inr ⟨by simp [step, hc, stepLive, Task.sentErr]; rfl,
        by simp [State.pc, Pc.erase]⟩⟩
    · exact ⟨_, Or.inl ⟨by simp [step, hc, stepLive, Task.sentVal]; rfl,
        by simp [State.pc, Pc.erase]⟩⟩

end GetReservationDetails

set_option maxRecDepth 100000 in
/-- C8 (counterexample). In `GetBalances`, let the ETH call succeed and the RPL
call fail.  After the ETH goroutine has reached its send on
`etherBalanceChannel` and the `select` has received the RPL error, the function
has returned on that error and the ETH goroutine is blocked on its send; it is
still blocked there after every further schedule. -/
theorem sender_blocked_forever_after_error :
    (GetBalances.run ⟨.ok 2500000000000000000, .error "timeout"⟩
        ⟨fun w => w / 1000000000000000000, none⟩
        [.call .ether, .check .ether, .publish .ether,
         .call .rpl, .check .rpl, .wrap .rpl, .recvError .rpl] GetBalances.init).main =
      .returned ⟨none, none, some "Error retrieving node RPL balance: timeout"⟩ ∧
    (GetBalances.run ⟨.ok 2500000000000000000, .error "timeout"⟩
        ⟨fun w => w / 1000000000000000000, none⟩
        [.call .ether, .check .ether, .publish .ether,
         .call .rpl, .check .rpl, .wrap .rpl, .recvError .rpl] GetBalances.init).etherTask.pc =
      .sendVal 2 ∧
    ∀ sched,
      (GetBalances.run ⟨.ok 2500000000000000000, .error "timeout"⟩
        ⟨fun w => w / 1000000000000000000, none⟩ sched
        (GetBalances.run ⟨.ok 2500000000000000000, .error "timeout"⟩
          ⟨fun w => w / 1000000000000000000, none⟩
          [.call .ether, .check .ether, .publish .ether,
           .call .rpl, .check .rpl, .wrap .rpl, .recvError .rpl] GetBalances.init)).pc .ether =
      .sendVal () := by
  refine ⟨by decide, by decide, fun sched => ?_⟩
  have h := (GetBalances.balances_run_after_return ⟨.ok 2500000000000000000, .error "timeout"⟩
    ⟨fun w => w / 1000000000000000000, none⟩ sched _ _
    (by decide : (GetBalances.run ⟨.ok 2500000000000000000, .error "timeout"⟩
        ⟨fun w => w / 1000000000000000000, none⟩
        [.call .ether, .check .ether, .publish .ether,
         .call .rpl, .check .rpl, .wrap .rpl, .recvError .rpl] GetBalances.init).main =
      .returned ⟨none, none, some "Error retrieving node RPL balance: timeout"⟩)).2 .ether
    (by decide)
  rw [h]
  decide

/-- C8 (amended). The channels are unbuffered and nothing receives from them
once the collecting function has returned.  For a goroutine of `GetBalances` or
of `GetReservationDetails` that is blocked on a send (to its field channel or
to the error channel): if the function has returned, the goroutine is at the
same send after every further schedule; if the function is still in its
`select` and the program has not crashed, the matching receive is enabled and
completes the send. -/
theorem send_completes_only_while_selecting (eth : Eth)
    (trB : GetBalances.Transport) (sB : GetBalances.State) (fB : GetBalances.Field)
    (trR : GetReservationDetails.Transport) (sR : GetReservationDetails.State)
    (fR : GetReservationDetails.Field)
    (hB : (sB.pc fB).isSending = true) (hR : (sR.pc fR).isSending = true) :
    (∀ r, sB.main = .returned r →
      ∀ sched, (GetBalances.run trB eth sched sB).pc fB = sB.pc fB) ∧
    (∀ n, sB.main = .select n → sB.crashed = false →
      ∃ s1, (GetBalances.step trB eth (.recvValue fB) sB = some s1 ∧ s1.pc fB = .done) ∨
        (GetBalances.step trB eth (.recvError fB) sB = some s1 ∧ s1.pc fB = .publish)) ∧
    (∀ r, sR.main = .returned r →
      ∀ sched, (GetReservationDetails.run trR eth sched sR).pc fR = sR.pc fR) ∧
    (∀ n, sR.main = .select n → sR.crashed = false →
      ∃ s1,
        (GetReservationDetails.step trR eth (.task (.recvValue fR)) sR = some s1 ∧
          s1.pc fR = .done) ∨
        (GetReservationDetails.step trR eth (.task (.recvError fR)) sR = some s1 ∧
          s1.pc fR = .publish)) :=
  ⟨fun r hm sched => (GetBalances.balances_run_after_return trB eth sched sB r hm).2 fB hB,
   fun n hm hc => GetBalances.balances_recv_enabled trB eth sB n fB hm hc hB,
   fun r hm sched => (GetReservationDetails.run_after_return trR eth sched sR r hm).2 fR hR,
   fun n hm hc => GetReservationDetails.recv_enabled trR eth sR n fR hm hc hR⟩

theorem send_completes_only_while_selecting_witness :
    ((⟨⟨some 1, .sendVal 1⟩, none, ⟨none, .call⟩, none, 0, 0, .select 0⟩ :
        GetBalances.State).pc .ether).isSending = true ∧
    ((⟨some "timeout", ⟨none, .sendErr "timeout"⟩, ⟨none, .call⟩, ⟨none, .call⟩, ⟨none, .call⟩,
        ⟨none, .call⟩, ⟨true, "", 0, 0, Time.zero⟩, none, none, .select 0, []⟩ :
        GetReservationDetails.State).pc .durationID).isSending = true ∧
    ∃ s1,
      (GetBalances.step ⟨.ok 1, .ok 2⟩ sampleEth (.recvValue .ether)
          ⟨⟨some 1, .sendVal 1⟩, none, ⟨none, .call⟩, none, 0, 0, .select 0⟩ = some s1 ∧
        s1.pc .ether = .done) ∨
      (GetBalances.step ⟨.ok 1, .ok 2⟩ sampleEth (.recvError .ether)
          ⟨⟨some 1, .sendVal 1⟩, none, ⟨none, .call⟩, none, 0, 0, .select 0⟩ = some s1 ∧
        s1.pc .ether = .publish) :=
  ⟨by decide, by decide,
   (send_completes_only_while_selecting sampleEth ⟨.ok 1, .ok 2⟩
      ⟨⟨some 1, .sendVal 1⟩, none, ⟨none, .call⟩, none, 0, 0, .select 0⟩ .ether
      ⟨.ok true, .error "timeout", .ok 1, .ok 2, .ok 3, .ok 4⟩
      ⟨some "timeout", ⟨none, .sendErr "timeout"⟩, ⟨none, .call⟩, ⟨none, .call⟩, ⟨none, .call⟩,
        ⟨none, .call⟩, ⟨true, "", 0, 0, Time.zero⟩, none, none, .select 0, []⟩ .durationID
      (by decide) (by decide)).2.1 0 rfl (by decide)⟩

/-- C5. Order-independence of the fan-in: on a transport where every call
succeeds, under every schedule of the goroutines and the `select` loop (hence
for every order in which the field values arrive), whenever the function has
returned, (a) it has returned the same result and (b) each destination
variable of the `select` holds the value sent on its own channel.  For
`GetBalances`: `etherBalance` holds the converted ETH balance and `rplBalance`
the converted RPL balance, returned first and second.  For
`GetReservationDetails`: `details.StakingDurationID`, `details.EtherRequired`
and `details.RplRequired` hold the duration ID and the two converted amounts,
the variable `reservedTime` holds the reserved time and the variable
`reservationTime` the reservation duration (the two expiry inputs), and the
returned record carries those three fields and the expiry computed from the
two inputs.  And for every permutation of the fields, the schedule that
delivers the values in that order makes the function return, with that result
and those destination values. -/
theorem fan_in_order_independent (eth : Eth) (etherWei rplWei : Int) (id : String)
    (etherRequiredWei rplRequiredWei reservedTime reservationTime : Int) :
    (∀ sched res,
      (GetBalances.run ⟨.ok etherWei, .ok rplWei⟩ eth sched GetBalances.init).main =
        .returned res →
      res = ⟨some (eth.WeiToEth etherWei), some (eth.WeiToEth rplWei), none⟩ ∧
      (GetBalances.run ⟨.ok etherWei, .ok rplWei⟩ eth sched GetBalances.init).etherBalance =
        eth.WeiToEth etherWei ∧
      (GetBalances.run ⟨.ok etherWei, .ok rplWei⟩ eth sched GetBalances.init).rplBalance =
        eth.WeiToEth rplWei) ∧
    (∀ order : List GetBalances.Field, order.Perm [.ether, .rpl] →
      (GetBalances.run ⟨.ok etherWei, .ok rplWei⟩ eth (GetBalances.arrival order)
        GetBalances.init).main =
        .returned ⟨some (eth.WeiToEth etherWei), some (eth.WeiToEth rplWei), none⟩ ∧
      (GetBalances.run ⟨.ok etherWei, .ok rplWei⟩ eth (GetBalances.arrival order)
        GetBalances.init).etherBalance = eth.WeiToEth etherWei ∧
      (GetBalances.run ⟨.ok etherWei, .ok rplWei⟩ eth (GetBalances.arrival order)
        GetBalances.init).rplBalance = eth.WeiToEth rplWei) ∧
    (∀ sched res,
      (GetReservationDetails.run
        (.success id etherRequiredWei rplRequiredWei reservedTime reservationTime) eth sched
        GetReservationDetails.init).main = .returned res →
      res = ⟨some ⟨true, id, eth.WeiToEth etherRequiredWei, eth.WeiToEth rplRequiredWei,
        timeUnix (bigInt64 (reservedTime + reservationTime)) 0⟩, none⟩ ∧
      (GetReservationDetails.run
        (.success id etherRequiredWei rplRequiredWei reservedTime reservationTime) eth sched
        GetReservationDetails.init).details.StakingDurationID = id ∧
      (GetReservationDetails.run
        (.success id etherRequiredWei rplRequiredWei reservedTime reservationTime) eth sched
        GetReservationDetails.init).details.EtherRequired = eth.WeiToEth etherRequiredWei ∧
      (GetReservationDetails.run
        (.success id etherRequiredWei rplRequiredWei reservedTime reservationTime) eth sched
        GetReservationDetails.init).details.RplRequired = eth.WeiToEth rplRequiredWei ∧
      (GetReservationDetails.run
        (.success id etherRequiredWei rplRequiredWei reservedTime reservationTime) eth sched
        GetReservationDetails.init).reservedTime = some reservedTime ∧
      (GetReservationDetails.run
        (.success id etherRequiredWei rplRequiredWei reservedTime reservationTime) eth sched
        GetReservationDetails.init).reservationTime = some reservationTime) ∧
    (∀ order : List GetReservationDetails.Field, order.Perm GetReservationDetails.Field.all →
      (GetReservationDetails.run
        (.success id etherRequiredWei rplRequiredWei reservedTime reservationTime) eth
        (GetReservationDetails.arrival order) GetReservationDetails.init).main =
        .returned ⟨some ⟨true, id, eth.WeiToEth etherRequiredWei, eth.WeiToEth rplRequiredWei,
          timeUnix (bigInt64 (reservedTime + reservationTime)) 0⟩, none⟩ ∧
      (GetReservationDetails.run
        (.success id etherRequiredWei rplRequiredWei reservedTime reservationTime) eth
        (GetReservationDetails.arrival order)
        GetReservationDetails.init).details.StakingDurationID = id ∧
      (GetReservationDetails.run
        (.success id etherRequiredWei rplRequiredWei reservedTime reservationTime) eth
        (GetReservationDetails.arrival order)
        GetReservationDetails.init).details.EtherRequired = eth.WeiToEth etherRequiredWei ∧
      (GetReservationDetails.run
        (.success id etherRequiredWei rplRequiredWei reservedTime reservationTime) eth
        (GetReservationDetails.arrival order)
        GetReservationDetails.init).details.RplRequired = eth.WeiToEth rplRequiredWei ∧
      (GetReservationDetails.run
        (.success id etherRequiredWei rplRequiredWei reservedTime reservationTime) eth
        (GetReservationDetails.arrival order)
        GetReservationDetails.init).reservedTime = some reservedTime ∧
      (GetReservationDetails.run
        (.success id etherRequiredWei rplRequiredWei reservedTime reservationTime) eth
        (GetReservationDetails.arrival order)
        GetReservationDetails.init).reservationTime = some reservationTime) :=
  ⟨fun sched res h =>
     ⟨GetBalances.balances_returned_of_success eth etherWei rplWei sched res h,
      GetBalances.balances_destinations_of_success eth etherWei rplWei sched res h⟩,
   fun order h =>
     ⟨GetBalances.balances_arrival_returns eth etherWei rplWei order h,
      GetBalances.balances_destinations_of_success eth etherWei rplWei _ _
        (GetBalances.balances_arrival_returns eth etherWei rplWei order h)⟩,
   fun sched res h =>
     ⟨GetReservationDetails.returned_of_success eth id etherRequiredWei rplRequiredWei
        reservedTime reservationTime sched res h,
      GetReservationDetails.destinations_of_success eth id etherRequiredWei rplRequiredWei
        reservedTime reservationTime sched res h⟩,
   fun order h =>
     ⟨GetReservationDetails.arrival_returns eth id etherRequiredWei rplRequiredWei
        reservedTime reservationTime order h,
      GetReservationDetails.destinations_of_success eth id etherRequiredWei rplRequiredWei
        reservedTime reservationTime _ _
        (GetReservationDetails.arrival_returns eth id etherRequiredWei rplRequiredWei
          reservedTime reservationTime order h)⟩⟩

set_option maxRecDepth 100000 in
theorem fan_in_order_independent_witness :
    ((GetBalances.run ⟨.ok 2500000000000000000, .ok 1000000000000000000⟩ sampleEth
        (GetBalances.arrival [.rpl, .ether]) GetBalances.init).main =
      .returned ⟨some (2),
        some (1), none⟩ ∧
     (GetBalances.run ⟨.ok 2500000000000000000, .ok 1000000000000000000⟩ sampleEth
        (GetBalances.arrival [.rpl, .ether]) GetBalances.init).etherBalance =
      2 ∧
     (GetBalances.run ⟨.ok 2500000000000000000, .ok 1000000000000000000⟩ sampleEth
        (GetBalances.arrival [.rpl, .ether]) GetBalances.init).rplBalance =
      1) ∧
    ((GetReservationDetails.run
        (.success "3m" 16000000000000000000 4000000000000000000 1000 500) sampleEth
        (GetReservationDetails.arrival
          [.reservationTime, .rplRequired, .durationID, .reservedTime, .etherRequired])
        GetReservationDetails.init).main =
      .returned ⟨some ⟨true, "3m", 16,
        4, ⟨1500, 0⟩⟩, none⟩ ∧
     (GetReservationDetails.run
        (.success "3m" 16000000000000000000 4000000000000000000 1000 500) sampleEth
        (GetReservationDetails.arrival
          [.reservationTime, .rplRequired, .durationID, .reservedTime, .etherRequired])
        GetReservationDetails.init).details.StakingDurationID = "3m" ∧
     (GetReservationDetails.run
        (.success "3m" 16000000000000000000 4000000000000000000 1000 500) sampleEth
        (GetReservationDetails.arrival
          [.reservationTime, .rplRequired, .durationID, .reservedTime, .etherRequired])
        GetReservationDetails.init).details.EtherRequired =
      16 ∧
     (GetReservationDetails.run
        (.success "3m" 16000000000000000000 4000000000000000000 1000 500) sampleEth
        (GetReservationDetails.arrival
          [.reservationTime, .rplRequired, .durationID, .reservedTime, .etherRequired])
        GetReservationDetails.init).details.RplRequired =
      4 ∧
     (GetReservationDetails.run
        (.success "3m" 16000000000000000000 4000000000000000000 1000 500) sampleEth
        (GetReservationDetails.arrival
          [.reservationTime, .rplRequired, .durationID, .reservedTime, .etherRequired])
        GetReservationDetails.init).reservedTime = some 1000 ∧
     (GetReservationDetails.run
        (.success "3m" 16000000000000000000 4000000000000000000 1000 500) sampleEth
        (GetReservationDetails.arrival
          [.reservationTime, .rplRequired, .durationID, .reservedTime, .etherRequired])
        GetReservationDetails.init).reservationTime = some 500) :=
  ⟨(fan_in_order_independent sampleEth 2500000000000000000 1000000000000000000 "3m"
      16000000000000000000 4000000000000000000 1000 500).2.1 [.rpl, .ether] (by decide),
   (fan_in_order_independent sampleEth 2500000000000000000 1000000000000000000 "3m"
      16000000000000000000 4000000000000000000 1000 500).2.2.2
      [.reservationTime, .rplRequired, .durationID, .reservedTime, .etherRequired]
      (by decide)⟩

namespace GetReservationDetails

set_option maxRecDepth 100000 in
/-- C4 (failing input). The call `getDepositReserveDurationID` fails, the other
calls succeed.  The ETH-required goroutine assigns nil to the shared `err`
before the duration-ID goroutine tests it, so that goroutine skips the error
branch and sends the unset `*durationID`; the function returns a nil error and
a record with `Exists = true` whose `StakingDurationID` is the empty string. -/
theorem failed_call_counted_as_success :
    (run ⟨.ok true, .error "timeout", .ok 16000000000000000000, .ok 4000000000000000000,
          .ok 1000, .ok 500⟩ sampleEth
        [.gate,
         .task (.call .durationID), .task (.call .etherRequired),
         .task (.check .durationID), .task (.publish .durationID),
         .task (.recvValue .durationID),
         .task (.check .etherRequired), .task (.publish .etherRequired),
         .task (.recvValue .etherRequired),
         .task (.call .rplRequired), .task (.check .rplRequired),
         .task (.publish .rplRequired), .task (.recvValue .rplRequired),
         .task (.call .reservedTime), .task (.check .reservedTime),
         .task (.publish .reservedTime), .task (.recvValue .reservedTime),
         .task (.call .reservationTime), .task (.check .reservationTime),
         .task (.publish .reservationTime), .task (.recvValue .reservationTime)] init).main =
      .returned ⟨some ⟨true, "", 16, 4, ⟨1500, 0⟩⟩, none⟩ := by
  decide

set_option maxRecDepth 100000 in
/-- C6 (failing input). The call `getDepositReserveDurationID` succeeds and
`getDepositReserveEtherRequired` fails with "timeout".  The ETH-required
goroutine assigns its error to the shared `err` before the duration-ID
goroutine tests it, so the duration-ID goroutine reports an error: the function
returns the description of the duration-ID fetch joined with the cause of the
ETH-required call. -/
theorem error_attributed_to_successful_call :
    (run ⟨.ok true, .ok "3m", .error "timeout", .ok 4000000000000000000, .ok 1000, .ok 500⟩
        sampleEth
        [.gate,
         .task (.call .durationID), .task (.call .etherRequired),
         .task (.check .durationID), .task (.wrap .durationID),
         .task (.recvError .durationID)] init).main =
      .returned ⟨none,
        some "Error retrieving deposit reservation staking duration ID: timeout"⟩ := by
  decide

set_option maxRecDepth 100000 in
/-- C9 (failing input). The goroutines of `GetReservationDetails` assign the
variable `err` of the enclosing function: after the duration-ID call has failed
`err` holds its error, the ETH-required goroutine then overwrites it with nil,
and the test in the duration-ID goroutine reads that nil and takes the
no-error branch. -/
theorem err_shared_between_goroutines :
    (run ⟨.ok true, .error "timeout", .ok 16000000000000000000, .ok 4000000000000000000,
          .ok 1000, .ok 500⟩ sampleEth
        [.gate, .task (.call .durationID)] init).err = some "timeout" ∧
    (run ⟨.ok true, .error "timeout", .ok 16000000000000000000, .ok 4000000000000000000,
          .ok 1000, .ok 500⟩ sampleEth
        [.gate, .task (.call .durationID), .task (.call .etherRequired)] init).err = none ∧
    (run ⟨.ok true, .error "timeout", .ok 16000000000000000000, .ok 4000000000000000000,
          .ok 1000, .ok 500⟩ sampleEth
        [.gate, .task (.call .durationID), .task (.call .etherRequired),
         .task (.check .durationID)] init).durationIDTask = ⟨none, .publish⟩ := by
  decide

set_option maxRecDepth 100000 in
/-- C7 (failing input). In `GetBalances` the call `getBalanceETH` fails.  Once
the `select` has received the error, the ETH goroutine goes on after the `if`:
it evaluates `eth.WeiToEth` on the unset (nil) slot, which here panics.  In
`GetReservationDetails` with `getDepositReservedTime` failing, the goroutine
likewise goes on to dereference its unset slot and is then blocked sending the
nil pointer on `reservedTimeChannel`. -/
theorem conversion_after_failed_call :
    (GetBalances.run ⟨.error "timeout", .ok 1000000000000000000⟩ sampleEth
        [.call .ether, .check .ether, .wrap .ether, .recvError .ether]
        GetBalances.init).etherTask = ⟨none, .publish⟩ ∧
    (GetBalances.run ⟨.error "timeout", .ok 1000000000000000000⟩ sampleEth
        [.call .ether, .check .ether, .wrap .ether, .recvError .ether, .publish .ether]
        GetBalances.init).etherTask = ⟨none, .panicked⟩ ∧
    (GetBalances.run ⟨.error "timeout", .ok 1000000000000000000⟩
        ⟨fun w => w / 1000000000000000000, some 0⟩
        [.call .ether, .check .ether, .wrap .ether, .recvError .ether, .publish .ether]
        GetBalances.init).etherTask = ⟨none, .sendVal 0⟩ ∧
    (run ⟨.ok true, .ok "3m", .ok 16000000000000000000, .ok 4000000000000000000,
          .error "timeout", .ok 500⟩ sampleEth
        [.gate, .task (.call .reservedTime), .task (.check .reservedTime),
         .task (.wrap .reservedTime), .task (.recvError .reservedTime),
         .task (.publish .reservedTime)] init).reservedTimeTask = ⟨none, .sendVal none⟩ := by
  decide

end GetReservationDetails

end Node
